import Mathlib

/-!
# Verification of the mindsync normalization / scoring / suggestion pipeline

Shallow embedding of the code in `src/models/calendar_event.py`,
`src/calendar_parser.py`, `src/stress_predictor.py` and
`src/suggestion_engine.py`, together with proofs settling the spec claims.

Modelling conventions:
* Python `datetime` objects are modelled at second granularity as a count of
  seconds since 1970-01-01T00:00:00 (timezone offsets are ignored: parsed
  timestamps are treated as being in one common offset, which is exact for the
  naive and `Z`-suffixed timestamps the code exchanges).
* Python floats are modelled as real numbers (`ℝ`); exact-by-construction
  quantities (minute gaps, durations) are modelled as rationals/integers.
* `json.dumps`/`json.loads` round-tripping of plain dicts/lists/strings is the
  identity on the `Json` model below, so the parser is applied directly to the
  `Json` value the exporter produces.
* Python's `sorted` is a stable sort; since the output of a stable sort is
  uniquely determined by the key relation, it is modelled by
  `List.insertionSort` with the non-strict key relation (which is stable).
-/

/-- `pat` occurs as a contiguous run inside `l`. -/
def charsContain (pat : List Char) : List Char → Bool
  | [] => pat.isEmpty
  | c :: rest => pat.isPrefixOf (c :: rest) || charsContain pat rest

/-- Python `pat in s` substring test (for nonempty `pat`). -/
def strContains (s pat : String) : Bool := charsContain pat.data s.data

/-- `str.split(c)` for a one-character separator (always nonempty output). -/
def splitOnChar (c : Char) : List Char → List (List Char)
  | [] => [[]]
  | x :: xs =>
    if x = c then [] :: splitOnChar c xs
    else
      match splitOnChar c xs with
      | r :: rs => (x :: r) :: rs
      | [] => [[x]]

/-- `int(s)` on a nonempty all-digit string, else `none`. -/
def digitsToNat? (l : List Char) : Option ℕ :=
  if l ≠ [] ∧ l.all (·.isDigit) then
    some (l.foldl (fun acc c => 10 * acc + (c.toNat - 48)) 0)
  else none

/-- `s.lower()`. -/
def strToLower (s : String) : String := String.mk (s.data.map Char.toLower)

/-- `s.strip()`. -/
def strTrim (s : String) : String :=
  String.mk
    (((s.data.dropWhile (·.isWhitespace)).reverse.dropWhile (·.isWhitespace)).reverse)

/-- `s.replace('Z', '+00:00')` (a one-character pattern replaces
per-character). -/
def strReplaceZ (s : String) : String :=
  String.mk ((s.data.map (fun c => if c = 'Z' then "+00:00".data else [c])).flatten)

/-- Zero-padded two-digit decimal rendering, as used by `strftime`/`isoformat`. -/
def pad2 (n : ℕ) : String := if n < 10 then "0" ++ toString n else toString n

/-- Zero-padded four-digit decimal rendering of a year. -/
def pad4 (n : ℕ) : String :=
  if n < 10 then "000" ++ toString n
  else if n < 100 then "00" ++ toString n
  else if n < 1000 then "0" ++ toString n
  else toString n

/-- Python `int()` truncation toward zero of a rational (`tdiv` truncates
toward zero and a rational's denominator is positive). -/
def pyTrunc (q : ℚ) : ℤ := q.num.tdiv q.den

/-- Days from 1970-01-01 to the civil date `y-m-d` (proleptic Gregorian,
`y ≥ 1`); the standard days-from-civil computation. -/
def daysFromCivil (y m d : ℕ) : ℤ :=
  let y' := if m ≤ 2 then y - 1 else y
  let era := y' / 400
  let yoe := y' - era * 400
  let mp := if 2 < m then m - 3 else m + 9
  let doy := (153 * mp + 2) / 5 + d - 1
  let doe := yoe * 365 + yoe / 4 - yoe / 100 + doy
  (era * 146097 + doe : ℤ) - 719468

/-- Civil date `(y, m, d)` of the day `z` days after 1970-01-01 (`z ≥ 0`);
inverse of `daysFromCivil` on the dates the pipeline formats. -/
def civilFromDays (z : ℕ) : ℕ × ℕ × ℕ :=
  let z' := z + 719468
  let era := z' / 146097
  let doe := z' % 146097
  let yoe := (doe - doe / 1460 + doe / 36524 - doe / 146096) / 365
  let y := yoe + era * 400
  let doy := doe - (365 * yoe + yoe / 4 - yoe / 100)
  let mp := (5 * doy + 2) / 153
  let d := doy - (153 * mp + 2) / 5 + 1
  let m := if mp < 10 then mp + 3 else mp - 9
  (if m ≤ 2 then y + 1 else y, m, d)

deriving instance DecidableEq for Except

/-- Model of a Python `datetime`: seconds since 1970-01-01T00:00:00. -/
structure DateTime where
  seconds : ℤ
deriving DecidableEq, Repr

/-- Build a `DateTime` from civil date and clock time. -/
def DateTime.ofCivil (y m d h mi s : ℕ) : DateTime :=
  ⟨daysFromCivil y m d * 86400 + (h * 3600 + mi * 60 + s : ℕ)⟩

/-- `datetime.hour`. -/
def DateTime.hour (t : DateTime) : ℤ := (t.seconds.fdiv 3600).emod 24

/-- `datetime.minute`. -/
def DateTime.minute (t : DateTime) : ℤ := (t.seconds.fdiv 60).emod 60

/-- `datetime.second`. -/
def DateTime.second (t : DateTime) : ℤ := t.seconds.emod 60

/-- `datetime.weekday()`: Monday = 0, ..., Sunday = 6 (1970-01-01 was a
Thursday, weekday 3). -/
def DateTime.weekday (t : DateTime) : ℤ := (t.seconds.fdiv 86400 + 3).emod 7

/-- `t - timedelta(minutes=n)`. -/
def DateTime.subMinutes (t : DateTime) (n : ℤ) : DateTime := ⟨t.seconds - n * 60⟩

/-- `t + timedelta(minutes=n)`. -/
def DateTime.addMinutes (t : DateTime) (n : ℤ) : DateTime := ⟨t.seconds + n * 60⟩

/-- `strftime('%H:%M')`. -/
def DateTime.strftimeHM (t : DateTime) : String :=
  pad2 t.hour.toNat ++ ":" ++ pad2 t.minute.toNat

/-- `datetime.isoformat()` (for instants at/after the 1970 epoch, which covers
every timestamp the pipeline formats). -/
def DateTime.isoformat (t : DateTime) : String :=
  let (y, m, d) := civilFromDays (t.seconds.fdiv 86400).toNat
  let rem := (t.seconds.emod 86400).toNat
  pad4 y ++ "-" ++ pad2 m ++ "-" ++ pad2 d ++ "T" ++
    pad2 (rem / 3600) ++ ":" ++ pad2 (rem % 3600 / 60) ++ ":" ++ pad2 (rem % 60)

instance : LE DateTime := ⟨fun a b => a.seconds ≤ b.seconds⟩
instance : LT DateTime := ⟨fun a b => a.seconds < b.seconds⟩
instance : DecidableRel (· ≤ · : DateTime → DateTime → Prop) :=
  fun a b => inferInstanceAs (Decidable (a.seconds ≤ b.seconds))
instance : DecidableRel (· < · : DateTime → DateTime → Prop) :=
  fun a b => inferInstanceAs (Decidable (a.seconds < b.seconds))

/-- Model of the JSON-like values (`json.loads` output) the parser consumes:
`null`/booleans/numbers/strings/lists/dicts.  Dicts are association lists with
distinct keys, looked up front-to-back. -/
inductive Json where
  | null : Json
  | bool (b : Bool) : Json
  | num (q : ℚ) : Json
  | str (s : String) : Json
  | arr (xs : List Json) : Json
  | obj (kvs : List (String × Json)) : Json

/-- Dict key lookup (`d[k]` / `k in d`). -/
def lookupObj (kvs : List (String × Json)) (k : String) : Option Json :=
  match kvs with
  | [] => none
  | (k', v) :: rest => if k' = k then some v else lookupObj rest k

/-- Python equality of a JSON value with the string `s` (used by `in` on
lists: `'items' in some_list`). -/
def Json.eqStr (j : Json) (s : String) : Bool :=
  match j with
  | .str t => t = s
  | _ => false

/-- Python truthiness of a JSON value (`bool(x)`). -/
def Json.truthy (j : Json) : Bool :=
  match j with
  | .null => false
  | .bool b => b
  | .num q => q ≠ 0
  | .str s => s ≠ ""
  | .arr xs => !xs.isEmpty
  | .obj kvs => !kvs.isEmpty

/-- The string content of a JSON value, defaulting to `""` for non-strings
(fields the code reads as strings; non-string values there are outside the
model). -/
def Json.asStrD (j : Json) : String :=
  match j with
  | .str s => s
  | _ => ""

/-- The value of a JSON integer (`isinstance(x, int)` matches), else `none`. -/
def Json.asInt? (j : Json) : Option ℤ :=
  match j with
  | .num q => if q.den = 1 then some q.num else none
  | _ => none

/-! ## `src/models/calendar_event.py` -/

/-- The canonical event dataclass `CalendarEvent`. -/
structure CalendarEvent where
  id : String
  title : String
  start_time : DateTime
  end_time : DateTime
  event_type : String := "default"
  description : Option String := none
  location : Option String := none
  participants : ℤ := 0
  attendees : Option (List String) := none
  organizer : Option String := none
  is_all_day : Bool := false
  is_online_meeting : Bool := false
  importance : String := "normal"
  status : String := "confirmed"
  recurring : Bool := false
  reminder_minutes : ℤ := 15
  categories : Option (List String) := none
deriving DecidableEq, Repr

/-- `CalendarEvent.duration_minutes`:
`int((end_time - start_time).total_seconds() / 60)`. -/
def CalendarEvent.duration_minutes (e : CalendarEvent) : ℤ :=
  pyTrunc (Rat.divInt (e.end_time.seconds - e.start_time.seconds) 60)

/-- Keyword list used by `CalendarEvent.is_meeting`. -/
def meetingKeywords : List String :=
  ["meeting", "call", "conference", "standup", "sync", "review"]

/-- `CalendarEvent.is_meeting`. -/
def CalendarEvent.is_meeting (e : CalendarEvent) : Bool :=
  (1 < e.participants) ||
  (match e.attendees with
   | some l => decide (1 < l.length)
   | none => false) ||
  meetingKeywords.any (fun kw => strContains (strToLower e.title) kw)

/-- `CalendarEvent.stress_indicators`, as the JSON dict `to_dict` embeds. -/
def CalendarEvent.stress_indicators (e : CalendarEvent) : Json :=
  .obj [("is_long", .bool (decide (60 < e.duration_minutes))),
        ("is_back_to_back", .bool false),
        ("is_late_day", .bool (decide (17 ≤ e.start_time.hour))),
        ("is_early_day", .bool (decide (e.start_time.hour ≤ 7))),
        ("high_importance", .bool (e.importance = "high")),
        ("many_attendees", .bool (decide (10 < e.participants))),
        ("is_online", .bool e.is_online_meeting)]

/-- `None → null`, `some s → str s` (how optional string fields serialize). -/
def optStrJson : Option String → Json
  | none => .null
  | some s => .str s

/-- `None → null`, `some l → arr l` (optional string-list fields). -/
def optListJson : Option (List String) → Json
  | none => .null
  | some l => .arr (l.map .str)

/-- `CalendarEvent.to_dict`. -/
def CalendarEvent.toDictJson (e : CalendarEvent) : Json :=
  .obj [("id", .str e.id),
        ("title", .str e.title),
        ("start_time", .str e.start_time.isoformat),
        ("end_time", .str e.end_time.isoformat),
        ("event_type", .str e.event_type),
        ("description", optStrJson e.description),
        ("location", optStrJson e.location),
        ("participants", .num e.participants),
        ("attendees", optListJson e.attendees),
        ("organizer", optStrJson e.organizer),
        ("is_all_day", .bool e.is_all_day),
        ("is_online_meeting", .bool e.is_online_meeting),
        ("importance", .str e.importance),
        ("status", .str e.status),
        ("recurring", .bool e.recurring),
        ("reminder_minutes", .num e.reminder_minutes),
        ("categories", optListJson e.categories),
        ("duration_minutes", .num e.duration_minutes),
        ("is_meeting", .bool e.is_meeting),
        ("stress_indicators", e.stress_indicators)]

/-- `CalendarEvent._determine_event_type`: ordered keyword classification of
`summary`/`subject`. -/
def determineEventType (kvs : List (String × Json)) : String :=
  let title := strToLower (match lookupObj kvs "summary" with
                | some v => v.asStrD
                | none => (match lookupObj kvs "subject" with
                           | some v => v.asStrD
                           | none => ""))
  if ["meeting", "call", "conference", "standup", "sync"].any
      (fun w => strContains title w) then "meeting"
  else if ["interview", "candidate"].any (fun w => strContains title w) then "interview"
  else if ["training", "workshop", "seminar"].any (fun w => strContains title w) then "training"
  else if ["break", "lunch", "coffee"].any (fun w => strContains title w) then "break"
  else if ["focus", "deep work", "coding"].any (fun w => strContains title w) then "focus_time"
  else if ["travel", "commute"].any (fun w => strContains title w) then "travel"
  else "other"

/-! ## `src/calendar_parser.py` — datetime parsing -/

/-- Parse `"YYYY-MM-DD"`. Range checks model `fromisoformat`'s validation. -/
def parseDatePart (d : List Char) : Option (ℕ × ℕ × ℕ) :=
  match splitOnChar '-' d with
  | [ys, ms, ds] =>
    match digitsToNat? ys, digitsToNat? ms, digitsToNat? ds with
    | some y, some m, some dd =>
      if 1 ≤ m ∧ m ≤ 12 ∧ 1 ≤ dd ∧ dd ≤ 31 ∧ 1 ≤ y then some (y, m, dd) else none
    | _, _, _ => none
  | _ => none

/-- Parse `"HH:MM[:SS[.ffffff]][±HH:MM]"`.  The offset part is discarded: the
model treats all timestamps as sharing one offset (see module header). -/
def parseTimePart (t : List Char) : Option (ℕ × ℕ × ℕ) :=
  let noTz := (splitOnChar '-' ((splitOnChar '+' t).headD t)).headD t
  match splitOnChar ':' noTz with
  | [hs, ms] =>
    match digitsToNat? hs, digitsToNat? ms with
    | some h, some mi => if h < 24 ∧ mi < 60 then some (h, mi, 0) else none
    | _, _ => none
  | [hs, ms, ss] =>
    match digitsToNat? hs, digitsToNat? ms,
        digitsToNat? ((splitOnChar '.' ss).headD ss) with
    | some h, some mi, some se =>
      if h < 24 ∧ mi < 60 ∧ se < 60 then some (h, mi, se) else none
    | _, _, _ => none
  | _ => none

/-- `datetime.fromisoformat` on the `"date"` / `"date'T'time"` shapes the
pipeline exchanges. -/
def fromIsoformat (s : String) : Option DateTime :=
  match splitOnChar 'T' s.data with
  | [d] =>
    match parseDatePart d with
    | some (y, m, dd) => some (.ofCivil y m dd 0 0 0)
    | none => none
  | [d, t] =>
    match parseDatePart d, parseTimePart t with
    | some (y, m, dd), some (h, mi, se) => some (.ofCivil y m dd h mi se)
    | _, _ => none
  | _ => none

/-- `CalendarParser._parse_datetime`: ISO parsing when a `'T'` is present
(after `Z → +00:00` rewriting), otherwise the `dateutil` fallback (modelled
for the ISO date shapes; any failure is an error the item loop catches). -/
def parseDatetime (s : String) : Option DateTime :=
  if strContains s "T" then fromIsoformat (strReplaceZ s)
  else fromIsoformat s

/-! ## `src/calendar_parser.py` — per-schema item parsers -/

/-- Read a dict-valued field with `{}` default (`data.get(k, {})`), failing —
as the Python attribute access then would — when the value is not a dict. -/
def getObjD (kvs : List (String × Json)) (k : String) :
    Option (List (String × Json)) :=
  match lookupObj kvs k with
  | none => some []
  | some (.obj inner) => some inner
  | some _ => none

/-- `data.get(k, default)` for string-valued fields. -/
def getStrD (kvs : List (String × Json)) (k : String) (dflt : String) : String :=
  match lookupObj kvs k with
  | some v => v.asStrD
  | none => dflt

/-- `CalendarEvent.from_google_calendar` as the item loop observes it:
`some event` on success, `none` when any exception is raised (and the item is
skipped). -/
def fromGoogleCalendar (j : Json) : Option CalendarEvent :=
  match j with
  | .obj kvs => do
    let startData ← getObjD kvs "start"
    let endData ← getObjD kvs "end"
    let (start_time, end_time, is_all_day) ←
      match lookupObj startData "dateTime" with
      | some sv => do
        let st ← fromIsoformat (strReplaceZ sv.asStrD)
        let ev ← lookupObj endData "dateTime"
        let et ← fromIsoformat (strReplaceZ ev.asStrD)
        pure (st, et, false)
      | none => do
        let sv ← lookupObj startData "date"
        let st ← fromIsoformat sv.asStrD
        let ev ← lookupObj endData "date"
        let et ← fromIsoformat ev.asStrD
        pure (st, et, true)
    let attendeesData ←
      match lookupObj kvs "attendees" with
      | none => some []
      | some (.arr l) => some l
      | some _ => none
    let attendees ← attendeesData.mapM (fun att =>
      match att with
      | .obj akvs => some (getStrD akvs "email" "")
      | _ => none)
    let organizerKvs ← getObjD kvs "organizer"
    let categories ←
      match lookupObj kvs "categories" with
      | none => some []
      | some (.arr l) => some (l.map Json.asStrD)
      | some _ => none
    pure { id := getStrD kvs "id" ""
           title := getStrD kvs "summary" "Untitled Event"
           start_time, end_time
           event_type := determineEventType kvs
           description := some (getStrD kvs "description" "")
           location := some (getStrD kvs "location" "")
           participants := attendeesData.length
           attendees := some attendees
           organizer := some (getStrD organizerKvs "email" "")
           is_all_day
           is_online_meeting :=
             (match lookupObj kvs "conferenceData" with
              | some v => v.truthy
              | none => false)
           status := getStrD kvs "status" "confirmed"
           recurring :=
             (match lookupObj kvs "recurringEventId" with
              | some v => v.truthy
              | none => false)
           categories := some categories }
  | _ => none

/-- `CalendarEvent.from_outlook_calendar`, same `Option` convention. -/
def fromOutlookCalendar (j : Json) : Option CalendarEvent :=
  match j with
  | .obj kvs => do
    let startData ← getObjD kvs "start"
    let endData ← getObjD kvs "end"
    let sv ← lookupObj startData "dateTime"
    let start_time ← fromIsoformat sv.asStrD
    let ev ← lookupObj endData "dateTime"
    let end_time ← fromIsoformat ev.asStrD
    let attendeesData ←
      match lookupObj kvs "attendees" with
      | none => some []
      | some (.arr l) => some l
      | some _ => none
    let attendees ← attendeesData.mapM (fun att =>
      match att with
      | .obj akvs => do
        let ekvs ← getObjD akvs "emailAddress"
        pure (getStrD ekvs "address" "")
      | _ => none)
    let bodyKvs ← getObjD kvs "body"
    let locationKvs ← getObjD kvs "location"
    let organizerKvs ← getObjD kvs "organizer"
    let orgEmailKvs ← getObjD organizerKvs "emailAddress"
    let categories ←
      match lookupObj kvs "categories" with
      | none => some []
      | some (.arr l) => some (l.map Json.asStrD)
      | some _ => none
    let importanceRaw := getStrD kvs "importance" "normal"
    let isCancelled :=
      (match lookupObj kvs "isCancelled" with
       | some v => v.truthy
       | none => false)
    pure { id := getStrD kvs "id" ""
           title := getStrD kvs "subject" "Untitled Event"
           start_time, end_time
           event_type := determineEventType kvs
           description := some (getStrD bodyKvs "content" "")
           location := some (getStrD locationKvs "displayName" "")
           participants := attendeesData.length
           attendees := some attendees
           organizer := some (getStrD orgEmailKvs "address" "")
           is_all_day :=
             (match lookupObj kvs "isAllDay" with
              | some v => v.truthy
              | none => false)
           is_online_meeting :=
             (match lookupObj kvs "isOnlineMeeting" with
              | some v => v.truthy
              | none => false)
           importance :=
             if importanceRaw = "low" ∨ importanceRaw = "normal" ∨
                importanceRaw = "high" then importanceRaw else "normal"
           status := if isCancelled then "cancelled" else "confirmed"
           recurring :=
             (match lookupObj kvs "recurrence" with
              | some v => v.truthy
              | none => false)
           categories := some categories }
  | _ => none

/-- `CalendarParser._create_event_from_custom`, same `Option` convention.
The Python default id `str(hash(title + str(start_time)))` is an
implementation-defined opaque string (`hash` is randomized per process); it is
modelled by a deterministic tag, which no claim inspects. -/
def createEventFromCustom (j : Json) : Option CalendarEvent :=
  match j with
  | .obj kvs => do
    let sv ← lookupObj kvs "start"
    let start_time ← parseDatetime sv.asStrD
    let ev ← lookupObj kvs "end"
    let end_time ← parseDatetime ev.asStrD
    let (participants, attendees) :=
      match lookupObj kvs "attendees" with
      | some (.arr l) => ((l.length : ℤ), l.map Json.asStrD)
      | some v =>
        (match v.asInt? with
         | some n => (n, [])
         | none => (0, []))
      | none =>
        (match lookupObj kvs "participants" with
         | some v =>
           (match v.asInt? with
            | some n => (n, [])
            | none => (0, []))
         | none => (0, []))
    let categories ←
      match lookupObj kvs "categories" with
      | none => some []
      | some (.arr l) => some (l.map Json.asStrD)
      | some _ => none
    pure { id :=
             (match lookupObj kvs "id" with
              | some v => v.asStrD
              | none => "hash:" ++ getStrD kvs "title" "" ++ "@" ++
                          start_time.isoformat)
           title := getStrD kvs "title" (getStrD kvs "summary" "Untitled Event")
           start_time, end_time
           event_type := getStrD kvs "type" (getStrD kvs "event_type" "other")
           description := some (getStrD kvs "description" "")
           location := some (getStrD kvs "location" "")
           participants
           attendees := some attendees
           organizer := some (getStrD kvs "organizer" "")
           is_all_day :=
             (match lookupObj kvs "is_all_day" with
              | some v => v.truthy | none => false)
           is_online_meeting :=
             (match lookupObj kvs "is_online_meeting" with
              | some v => v.truthy | none => false)
           importance := getStrD kvs "importance" "normal"
           status := getStrD kvs "status" "confirmed"
           recurring :=
             (match lookupObj kvs "recurring" with
              | some v => v.truthy | none => false)
           reminder_minutes :=
             (match lookupObj kvs "reminder_minutes" with
              | some v => (match v.asInt? with | some n => n | none => 15)
              | none => 15)
           categories := some categories }
  | _ => none

/-! ## `src/calendar_parser.py` — format detection and top-level parse -/

/-- `kvs` maps `k` to a list (`k in d and isinstance(d[k], list)`). -/
def hasListKey (kvs : List (String × Json)) (k : String) : Bool :=
  match lookupObj kvs k with
  | some (.arr _) => true
  | _ => false

/-- `CalendarParser._detect_format`.  Checks run in source order: an
`"items"` list, then a `"value"` list, then an `"events"` list, then a bare
list.  On a bare list, Python's `'items' in calendar_data` is membership — if
it succeeds, the subsequent indexing `calendar_data['items']` raises
`TypeError`, modelled as `.error "TypeError"`; likewise `in` on a non-iterable
raises, and on a string it is a substring test followed by the same
`TypeError`. -/
def detectFormat : Json → Except String String
  | .obj kvs =>
    if hasListKey kvs "items" then .ok "google"
    else if hasListKey kvs "value" then .ok "outlook"
    else if hasListKey kvs "events" then .ok "custom"
    else .ok "unknown"
  | .arr xs =>
    if xs.any (·.eqStr "items") then .error "TypeError"
    else if xs.any (·.eqStr "value") then .error "TypeError"
    else if xs.any (·.eqStr "events") then .error "TypeError"
    else .ok "custom"
  | .str s =>
    if strContains s "items" ∨ strContains s "value" ∨ strContains s "events"
    then .error "TypeError" else .ok "unknown"
  | _ => .error "TypeError"

/-- `CalendarParser._parse_google_calendar`: parse every item under
`"items"`, skipping (with a logged message) each item whose parse raises.
The non-list branches are unreachable from `parseCalendar`, whose detection
step guarantees `"items"` maps to a list. -/
def parseGoogleCalendar (data : Json) : Except String (List CalendarEvent) :=
  match data with
  | .obj kvs =>
    match lookupObj kvs "items" with
    | some (.arr items) => .ok (items.filterMap fromGoogleCalendar)
    | some _ => .error "TypeError"
    | none => .ok []
  | _ => .error "TypeError"

/-- `CalendarParser._parse_outlook_calendar`. -/
def parseOutlookCalendar (data : Json) : Except String (List CalendarEvent) :=
  match data with
  | .obj kvs =>
    match lookupObj kvs "value" with
    | some (.arr items) => .ok (items.filterMap fromOutlookCalendar)
    | some _ => .error "TypeError"
    | none => .ok []
  | _ => .error "TypeError"

/-- `CalendarParser._parse_custom_calendar`.  The non-list `"events"` branch
is unreachable from `parseCalendar`, whose detection step guarantees the
`"events"` key (when taken) maps to a list; a bare list reaching this
function parses item by item. -/
def parseCustomCalendar (data : Json) : Except String (List CalendarEvent) :=
  match data with
  | .obj kvs =>
    match lookupObj kvs "events" with
    | some (.arr items) => .ok (items.filterMap createEventFromCustom)
    | some _ => .error "TypeError"
    | none => .error "Invalid custom calendar format"
  | .arr items => .ok (items.filterMap createEventFromCustom)
  | _ => .error "Invalid custom calendar format"

/-- `CalendarParser.parse_calendar`: detect the format, dispatch, and raise
`ValueError("Unsupported calendar format detected")` on an unknown format. -/
def parseCalendar (data : Json) : Except String (List CalendarEvent) :=
  match detectFormat data with
  | .error e => .error e
  | .ok fmt =>
    if fmt = "google" then parseGoogleCalendar data
    else if fmt = "outlook" then parseOutlookCalendar data
    else if fmt = "custom" then parseCustomCalendar data
    else .error "Unsupported calendar format detected"

/-- `CalendarParser._validate_event`: per-event validation error strings. -/
def validateEvent (e : CalendarEvent) (i : ℕ) : List String :=
  (if e.title = "" then ["Event " ++ toString i ++ ": Missing title"] else []) ++
  (if e.end_time.seconds ≤ e.start_time.seconds then
     ["Event " ++ toString i ++ ": Start time must be before end time"] else []) ++
  (if e.duration_minutes ≤ 0 then
     ["Event " ++ toString i ++ ": Invalid duration"] else []) ++
  (if e.participants < 0 then
     ["Event " ++ toString i ++ ": Invalid participant count"] else [])

/-- `CalendarParser.export_events_to_json` with `format_type='custom'`, at the
level of the JSON value serialized (`now` supplies `datetime.now()` for the
`exported_at` metadata field). -/
def exportEventsToJson (now : DateTime) (events : List CalendarEvent) : Json :=
  .obj [("events", .arr (events.map CalendarEvent.toDictJson)),
        ("metadata", .obj
          [("total_events", .num events.length),
           ("exported_at", .str now.isoformat),
           ("format", .str "mindsync_custom")])]

/-! ## `src/stress_predictor.py`

The calculator's arithmetic is on Python floats, modelled as `ℝ`; all branch
conditions are on exact quantities (minutes, counts, keyword matches) and are
modelled decidably.  `vaderSentiment` is an external library; the model takes
the deterministic keyword fallback branch (`VADER_AVAILABLE = False`). -/

def highStressKeywords : List String :=
  ["urgent", "crisis", "deadline", "review", "performance",
   "conflict", "escalation", "emergency", "critical", "budget",
   "layoff", "restructure", "termination", "firing", "discipline"]

def mediumStressKeywords : List String :=
  ["planning", "decision", "strategy", "proposal", "presentation",
   "discussion", "brainstorm", "workshop", "training", "interview",
   "onboarding", "kickoff", "retrospective", "demo"]

def lowStressKeywords : List String :=
  ["social", "celebration", "team building", "coffee", "informal",
   "casual", "lunch", "fun", "birthday", "farewell", "welcome",
   "happy hour", "game", "party"]

def recurringKeywords : List String :=
  ["weekly", "daily", "standup", "1:1", "sync", "recurring",
   "regular", "team meeting", "status", "check-in", "scrum",
   "all hands", "townhall"]

def urgentKeywords : List String :=
  ["urgent", "emergency", "asap", "immediate", "crisis",
   "escalation", "breaking", "urgent call", "fire drill",
   "hotfix", "incident"]

/-- `f"{event.title} {event.description}"`; Python renders a `None`
description as the string `"None"`. -/
def eventText (e : CalendarEvent) : String :=
  e.title ++ " " ++ (match e.description with | none => "None" | some s => s)

/-- Whether any keyword of `kws` occurs in the lowercased title+description. -/
def textMatches (e : CalendarEvent) (kws : List String) : Bool :=
  kws.any (fun kw => strContains (strToLower (eventText e)) kw)

/-- The fallback's negative-word hit count. -/
def negWordCount (e : CalendarEvent) : ℕ :=
  (["problem", "issue", "urgent", "crisis", "conflict"].filter
    (fun w => strContains (strToLower (eventText e)) w)).length

/-- The fallback's positive-word hit count. -/
def posWordCount (e : CalendarEvent) : ℕ :=
  (["celebration", "success", "achievement", "fun", "social"].filter
    (fun w => strContains (strToLower (eventText e)) w)).length

/-- `_analyze_sentiment` (deterministic keyword fallback branch). -/
noncomputable def analyzeSentiment (e : CalendarEvent) : ℝ :=
  if strTrim (eventText e) = "" then 1.0
  else if negWordCount e < posWordCount e then 0.9
  else if posWordCount e < negWordCount e then 1.3
  else 1.0

/-- `_analyze_content_complexity`. -/
noncomputable def analyzeContentComplexity (e : CalendarEvent) : ℝ :=
  if textMatches e highStressKeywords then 1.4
  else if textMatches e mediumStressKeywords then 1.2
  else if textMatches e lowStressKeywords then 0.8
  else 1.0

/-- `_analyze_recurring_pattern`. -/
noncomputable def analyzeRecurringPattern (e : CalendarEvent) : ℝ :=
  if textMatches e recurringKeywords then 0.9
  else if textMatches e urgentKeywords then 1.3
  else 1.0

/-- The 11:30–13:30 window test of `_calculate_lunch_penalty`. -/
def isLunchTime (e : CalendarEvent) : Bool :=
  (e.start_time.hour = 11 ∧ 30 ≤ e.start_time.minute) ∨
  e.start_time.hour = 12 ∨
  (e.start_time.hour = 13 ∧ e.start_time.minute ≤ 30)

/-- `_calculate_lunch_penalty` (`1.3` exactly when `isLunchTime`, else `1.0`;
so `_calculate_lunch_penalty(e) > 1.0 ↔ isLunchTime e`). -/
noncomputable def lunchPenalty (e : CalendarEvent) : ℝ :=
  if isLunchTime e then 1.3 else 1.0

/-- The participant-count tier of `_calculate_meeting_type_difficulty`. -/
noncomputable def baseDifficulty (e : CalendarEvent) : ℝ :=
  if e.participants ≤ 2 then 1.0
  else if e.participants ≤ 5 then 1.2
  else 1.5

/-- `math.log2(max(participant_count, 2))`. -/
noncomputable def participantWeight (e : CalendarEvent) : ℝ :=
  Real.logb 2 ((max e.participants 2 : ℤ) : ℝ)

/-- `_calculate_meeting_type_difficulty`. -/
noncomputable def meetingTypeDifficulty (e : CalendarEvent) : ℝ :=
  baseDifficulty e * participantWeight e * analyzeSentiment e *
    analyzeContentComplexity e * analyzeRecurringPattern e * lunchPenalty e

/-- `_calculate_base_meeting_stress`:
`α1 * count ** 1.2 + α2 * Σ duration_minutes * difficulty`. -/
noncomputable def baseMeetingStress (events : List CalendarEvent) : ℝ :=
  6 * ((events.length : ℝ) ^ (1.2 : ℝ)) +
    0.12 * (events.map
      (fun e => (e.duration_minutes : ℝ) * meetingTypeDifficulty e)).sum

/-- `(meeting.start_time - prev_meeting.end_time).total_seconds() / 60`. -/
def gapQ (a b : CalendarEvent) : ℚ :=
  Rat.divInt (b.start_time.seconds - a.end_time.seconds) 60

/-- Penalty of one completed back-to-back chain of `n` meetings:
`α3 * n ** 1.5` when `n ≥ 2`, nothing otherwise. -/
noncomputable def chainPenalty (n : ℕ) : ℝ :=
  if 2 ≤ n then 15 * ((n : ℝ) ^ (1.5 : ℝ)) else 0

/-- The chain-walk of `_calculate_back_to_back_penalty`: `prev` is the last
meeting processed, `c` the length of the chain it closes (the Python code
keeps the chain as a list but only ever uses its length). -/
noncomputable def bbGo (prev : CalendarEvent) (c : ℕ) :
    List CalendarEvent → ℝ
  | [] => chainPenalty c
  | m :: rest =>
    if gapQ prev m ≤ 10 then bbGo m (c + 1) rest
    else chainPenalty c + bbGo m 1 rest

/-- `_calculate_back_to_back_penalty` (on the start-time-sorted list). -/
noncomputable def backToBackPenalty : List CalendarEvent → ℝ
  | [] => 0
  | m :: rest => bbGo m 1 rest

/-- Consecutive pairs of a list (`l[i], l[i+1]`). -/
def consecPairs (l : List α) : List (α × α) := l.zip l.tail

/-- `_calculate_clustering_stress`: `α4 * (60 / gap)` for gaps in `(10, 30]`. -/
noncomputable def clusteringStress (ms : List CalendarEvent) : ℝ :=
  ((consecPairs ms).map (fun p =>
    if 10 < gapQ p.1 p.2 ∧ gapQ p.1 p.2 ≤ 30
    then ((8 * (60 / gapQ p.1 p.2) : ℚ) : ℝ) else 0)).sum

/-- `_get_required_recovery_time` (exact, hence rational-valued). -/
def requiredRecoveryQ (e : CalendarEvent) : ℚ :=
  (if e.participants ≤ 2 then 5
   else if e.participants ≤ 5 then 8
   else 12) +
  (if textMatches e highStressKeywords then 3 else 0) +
  (if isLunchTime e then 5 else 0)

/-- `_calculate_recovery_deficit`: `α5 * (required - actual)` per pair with a
gap below the previous meeting's required recovery time. -/
noncomputable def recoveryDeficit (ms : List CalendarEvent) : ℝ :=
  ((consecPairs ms).map (fun p =>
    if gapQ p.1 p.2 < requiredRecoveryQ p.1
    then ((2 * (requiredRecoveryQ p.1 - gapQ p.1 p.2) : ℚ) : ℝ) else 0)).sum

/-- `_calculate_intensity_clustering`: `α7 * n²` per start-hour bucket with
`n ≥ 2` meetings. -/
noncomputable def intensityClustering (events : List CalendarEvent) : ℝ :=
  (((events.map (fun e => e.start_time.hour)).dedup).map (fun h =>
    let n := (events.filter (fun e => e.start_time.hour = h)).length
    if 2 ≤ n then (10 : ℝ) * (n : ℝ) ^ 2 else 0)).sum

/-- `_get_circadian_multiplier`. -/
noncomputable def circadianMultiplier (h : ℤ) : ℝ :=
  if h = 7 ∨ h = 8 then 1.4
  else if h = 9 ∨ h = 10 then 1.0
  else if h = 11 ∨ h = 12 ∨ h = 13 then 1.3
  else if h = 14 ∨ h = 15 ∨ h = 16 then 1.0
  else if h = 17 ∨ h = 18 then 1.4
  else if h = 19 ∨ h = 20 ∨ h = 21 then 1.6
  else 1.0

/-- `_get_day_of_week_factor`. -/
noncomputable def dayOfWeekFactor (w : ℤ) : ℝ :=
  if w = 0 then 1.2
  else if w = 4 then 0.9
  else 1.0

/-- `_calculate_carryover_factor`. -/
noncomputable def carryoverFactor (previousDayStress : Option ℝ) : ℝ :=
  match previousDayStress with
  | none => 1.0
  | some p => min (1 + 0.25 * (p / 100) * 0.7) 1.5

/-- Key relation of `sorted(events, key=lambda m: m.start_time)`. -/
def startLe (a b : CalendarEvent) : Prop :=
  a.start_time.seconds ≤ b.start_time.seconds

instance : DecidableRel startLe :=
  fun a b => inferInstanceAs (Decidable (a.start_time.seconds ≤ b.start_time.seconds))

instance : IsTotal CalendarEvent startLe :=
  ⟨fun a b => Int.le_total a.start_time.seconds b.start_time.seconds⟩

instance : IsTrans CalendarEvent startLe :=
  ⟨fun _ _ _ h h' => le_trans h h'⟩

/-- `sorted(events, key=lambda m: m.start_time)` (stable; see module header). -/
def sortByStart (events : List CalendarEvent) : List CalendarEvent :=
  events.insertionSort startLe

/-- Python `round(x, 1)` (half-integer ties, not representable exactly in
binary floats, are immaterial to every claim; the model rounds them up where
Python rounds them to even). -/
noncomputable def pyRound1 (x : ℝ) : ℝ := ((⌊10 * x + 1 / 2⌋ : ℤ) : ℝ) / 10

/-- Python `round(x, 2)`, same convention. -/
noncomputable def pyRound2 (x : ℝ) : ℝ := ((⌊100 * x + 1 / 2⌋ : ℤ) : ℝ) / 100

/-- `round(q, 1)` on exact rational quantities. -/
def pyRound1Q (q : ℚ) : ℚ := ((⌊10 * q + 1 / 2⌋ : ℤ) : ℚ) / 10

/-- `_get_stress_level_and_recommendations`: level name and recommendation
menu from the (unrounded, clamped) score.  The `events` argument is accepted
but, as in the source, unused. -/
noncomputable def getStressLevelAndRecommendations (s : ℝ)
    (_events : List CalendarEvent) : String × List String :=
  if s ≤ 20 then
    ("Low Stress",
     ["Great! Your meeting load is manageable.",
      "Consider using this light day to tackle focused work.",
      "Maybe offer to help colleagues with their workload."])
  else if s ≤ 40 then
    ("Moderate Stress",
     ["Your meeting load is moderate. Stay organized.",
      "Take short breaks between meetings when possible.",
      "Prepare meeting agendas to make sessions more efficient."])
  else if s ≤ 60 then
    ("Elevated Stress",
     ["Consider rescheduling non-critical meetings.",
      "Take 5-10 minute breaks between meetings.",
      "Practice deep breathing exercises between sessions.",
      "Stay hydrated and avoid caffeine overload."])
  else if s ≤ 80 then
    ("High Stress",
     ["⚠️ Heavy meeting day detected. Prioritize ruthlessly.",
      "Cancel or delegate non-essential meetings.",
      "Block 15-minute breaks between back-to-back meetings.",
      "Consider declining lunch meetings to preserve energy.",
      "Prepare thoroughly to reduce in-meeting stress."])
  else
    ("Critical Stress",
     ["🚨 CRITICAL: This schedule may lead to burnout.",
      "Immediately reschedule or cancel non-urgent meetings.",
      "Block recovery time after high-stress meetings.",
      "Consider working from home to reduce commute stress.",
      "Speak with your manager about workload management.",
      "Take micro-breaks (2-3 minutes) between every meeting."])

/-- The `meeting_analysis` summary of `_analyze_meetings`. -/
structure MeetingAnalysis where
  total_meetings : ℕ
  total_duration_hours : ℚ
  back_to_back_transitions : ℕ
  lunch_meetings : ℕ
  high_stress_meetings : ℕ
  first_meeting : String
  last_meeting : String
  longest_meeting : ℤ
deriving DecidableEq, Repr

/-- `_analyze_meetings` (invoked only on nonempty `events`; the lunch and
high-stress filters are `_calculate_lunch_penalty(e) > 1.0` and
`_analyze_content_complexity(e) >= 1.4`, which hold exactly on `isLunchTime`
resp. a high-stress keyword match). -/
def analyzeMeetings (events : List CalendarEvent) : MeetingAnalysis :=
  let ms := sortByStart events
  { total_meetings := events.length
    total_duration_hours :=
      pyRound1Q (((events.map CalendarEvent.duration_minutes).sum : ℚ) / 60)
    back_to_back_transitions :=
      (consecPairs ms).countP (fun p => gapQ p.1 p.2 ≤ 10)
    lunch_meetings := (events.filter isLunchTime).length
    high_stress_meetings :=
      (events.filter (fun e => textMatches e highStressKeywords)).length
    first_meeting := (match ms.head? with
                      | some m => m.start_time.strftimeHM
                      | none => "")
    last_meeting := (match ms.getLast? with
                     | some m => m.end_time.strftimeHM
                     | none => "")
    longest_meeting := ((events.map CalendarEvent.duration_minutes).maximum).getD 0 }

/-- The `components` breakdown of the stress result. -/
structure StressComponents where
  base_meeting_stress : ℝ
  back_to_back_penalty : ℝ
  clustering_stress : ℝ
  recovery_deficit : ℝ
  intensity_clustering : ℝ
  circadian_factor : ℝ
  carryover_factor : ℝ

/-- The dictionary returned by `calculate_daily_stress` (`meeting_analysis`
is absent from the zero-meetings result, hence optional). -/
structure StressResult where
  daily_stress_score : ℝ
  stress_level : String
  components : StressComponents
  recommendations : List String
  meeting_analysis : Option MeetingAnalysis

/-- `MeetingStressCalculator.calculate_daily_stress`. -/
noncomputable def calculateDailyStress (events : List CalendarEvent)
    (previousDayStress : Option ℝ := none) : StressResult :=
  match events with
  | [] =>
    { daily_stress_score := 0
      stress_level := "No Meetings"
      components :=
        { base_meeting_stress := 0, back_to_back_penalty := 0
          clustering_stress := 0, recovery_deficit := 0
          intensity_clustering := 0, circadian_factor := 1.0
          carryover_factor := 1.0 }
      recommendations := ["Great! No meetings scheduled for today."]
      meeting_analysis := none }
  | e₀ :: _ =>
    let ms := sortByStart events
    let bms := baseMeetingStress events
    let bbmp := backToBackPenalty ms
    let tcs := clusteringStress ms
    let rda := recoveryDeficit ms
    let mic := intensityClustering events
    let avgHour := pyTrunc
      (((events.map (fun e => e.start_time.hour)).sum : ℤ) / (events.length : ℚ))
    let caf := circadianMultiplier avgHour * dayOfWeekFactor e₀.start_time.weekday
    let cfc := carryoverFactor previousDayStress
    let rawStress := (bms + bbmp + tcs + rda + mic) * caf * cfc
    let dailyStress := min 100 (max 0 rawStress)
    { daily_stress_score := pyRound1 dailyStress
      stress_level := (getStressLevelAndRecommendations dailyStress events).1
      components :=
        { base_meeting_stress := pyRound1 bms
          back_to_back_penalty := pyRound1 bbmp
          clustering_stress := pyRound1 tcs
          recovery_deficit := pyRound1 rda
          intensity_clustering := pyRound1 mic
          circadian_factor := pyRound2 caf
          carryover_factor := pyRound2 cfc }
      recommendations := (getStressLevelAndRecommendations dailyStress events).2
      meeting_analysis := some (analyzeMeetings events) }

/-! ## `src/suggestion_engine.py`

`random.choice` is modelled by an explicit selection function `rand` passed
through the engine; every theorem below holds for every such function. -/

/-- A break suggestion dict (`btype` is the dict key `'type'`). -/
structure BreakSuggestion where
  time : String
  duration : ℤ
  priority : ℤ
  btype : String
  activity : String
  reason : String
deriving DecidableEq, Repr

/-- A daily-plan entry dict (`ptype` is the dict key `'type'`). -/
structure PlanEntry where
  time : String
  activity : String
  ptype : String
deriving DecidableEq, Repr

/-- The dict returned by `generate_suggestions`. -/
structure SuggestionResult where
  break_suggestions : List BreakSuggestion
  optimization_tips : List String
  daily_plan : List PlanEntry
  summary : String

/-- The `self.activities` table (duration-keyed phrase lists). -/
def activitiesFor (bt : String) : List (ℤ × List String) :=
  if bt = "mindfulness" then
    [(2, ["Take 3 deep breaths", "Quick gratitude moment"]),
     (5, ["5-minute meditation", "Mindful breathing", "Body scan"]),
     (10, ["Guided meditation", "Mindfulness practice", "Stress visualization"]),
     (15, ["Extended meditation", "Progressive relaxation", "Mindful walking"])]
  else if bt = "movement" then
    [(3, ["Neck rolls", "Shoulder shrugs", "Ankle circles"]),
     (5, ["Desk stretches", "Walk to water cooler", "Quick posture reset"]),
     (10, ["Walk around building", "Stair climbing", "Full body stretch"]),
     (15, ["Outdoor walk", "Yoga poses", "Exercise routine"])]
  else if bt = "recovery" then
    [(3, ["Hydrate", "Eye rest (20-20-20)", "Deep breath"]),
     (5, ["Healthy snack", "Posture check", "Workspace tidy"]),
     (10, ["Complete break", "Fresh air", "Mental reset"]),
     (15, ["Extended recovery", "Relaxation time", "Rest break"])]
  else if bt = "mental" then
    [(5, ["Review priorities", "Quick journaling", "Email triage"]),
     (10, ["Task planning", "Note organization", "Goal check"]),
     (15, ["Weekly review", "Strategic thinking", "Project planning"])]
  else []

/-- Duration lookup in an activity table. -/
def lookupDur (tbl : List (ℤ × List String)) (d : ℤ) : Option (List String) :=
  match tbl with
  | [] => none
  | (d', l) :: rest => if d' = d then some l else lookupDur rest d

/-- Python `s.title()` on the single-word category names. -/
def pyTitle (s : String) : String :=
  match s.data with
  | [] => ""
  | c :: cs => String.mk (c.toUpper :: cs)

/-- `_get_safe_activity`: exact-duration phrases if present, otherwise all
phrases of the category, otherwise a generic label. -/
def getSafeActivity (rand : List String → String) (bt : String) (dur : ℤ) :
    String :=
  match lookupDur (activitiesFor bt) dur with
  | some l => rand l
  | none =>
    let all := ((activitiesFor bt).map Prod.snd).flatten
    if all.isEmpty then pyTitle bt ++ " break" else rand all

/-- `_get_break_reason`. -/
def getBreakReason (cur _next : CalendarEvent) (gap : ℚ) : String :=
  if gap ≤ 5 then "Short gap - quick mental reset"
  else if gap ≤ 10 then "Back-to-back meetings - mental reset needed"
  else if 90 < cur.duration_minutes then
    "Long meeting completed - physical movement recommended"
  else if 8 < cur.participants then
    "Large group meeting - recovery time beneficial"
  else if ["review", "performance"].any
      (fun k => strContains (strToLower cur.title) k) then
    "High-stress meeting - stress relief recommended"
  else "Opportunity for wellbeing break"

/-- The gap-tier break of `_find_break_opportunities` for one consecutive
pair with `gap ≥ 2` (source order of the tiers: `≥15`, `≥10`, `≥5`, else). -/
def gapBreak (rand : List String → String) (cur next : CalendarEvent) :
    BreakSuggestion :=
  let gap := gapQ cur next
  if 15 ≤ gap then
    ⟨cur.end_time.strftimeHM, 10, 4, "movement",
     getSafeActivity rand "movement" 10, getBreakReason cur next gap⟩
  else if 10 ≤ gap then
    ⟨cur.end_time.strftimeHM, 5, 3, "recovery",
     getSafeActivity rand "recovery" 5, getBreakReason cur next gap⟩
  else if 5 ≤ gap then
    ⟨cur.end_time.strftimeHM, 3, 3, "mindfulness",
     getSafeActivity rand "mindfulness" 3, getBreakReason cur next gap⟩
  else
    ⟨cur.end_time.strftimeHM, 2, 2, "mindfulness",
     getSafeActivity rand "mindfulness" 2, getBreakReason cur next gap⟩

/-- The between-meetings loop of `_find_break_opportunities`: one suggestion
per consecutive pair with `gap ≥ 2` minutes. -/
def betweenBreaks (rand : List String → String) :
    List CalendarEvent → List BreakSuggestion
  | a :: b :: rest =>
    (if 2 ≤ gapQ a b then [gapBreak rand a b] else []) ++
      betweenBreaks rand (b :: rest)
  | _ => []

/-- CASE 1 of `_find_break_opportunities` (a single meeting). -/
def singleBreaks (m : CalendarEvent) : List BreakSuggestion :=
  (if 10 ≤ m.start_time.hour then
     [⟨(m.start_time.subMinutes 30).strftimeHM, 10, 3, "preparation",
       "Meeting preparation and mindfulness",
       "Prepare mentally for upcoming meeting"⟩]
   else []) ++
  (if m.end_time.hour < 18 then
     [⟨m.end_time.strftimeHM, 15, 4, "recovery",
       "Post-meeting decompression walk", "Recovery time after meeting"⟩]
   else [])

/-- The pre-first-meeting preparation break of CASE 2. -/
def prepBreaks (es : List CalendarEvent) : List BreakSuggestion :=
  match es.head? with
  | some first =>
    if 10 ≤ first.start_time.hour then
      [⟨(first.start_time.subMinutes 15).strftimeHM, 10, 3, "preparation",
        "Morning preparation and focus setting", "Prepare for the day ahead"⟩]
    else []
  | none => []

/-- The post-last-meeting recovery break of CASE 2. -/
def postBreaks (es : List CalendarEvent) : List BreakSuggestion :=
  match es.getLast? with
  | some last =>
    if last.end_time.hour < 18 then
      [⟨last.end_time.strftimeHM, 15, 4, "recovery",
        "End-of-meetings decompression", "Transition back to focused work"⟩]
    else []
  | none => []

/-- The longest-gap scan of CASE 3 (strict `>` keeps the first maximum). -/
def longestGapScan (es : List CalendarEvent) : ℚ × Option DateTime :=
  (consecPairs es).foldl
    (fun acc p => if acc.1 < gapQ p.1 p.2 then (gapQ p.1 p.2, some p.1.end_time) else acc)
    (0, none)

/-- CASE 3 of `_find_break_opportunities`: the heavy-day (`≥ 4` events)
extended-recovery suggestion at the longest gap, when that gap is `≥ 30`. -/
def heavyBreaks (es : List CalendarEvent) : List BreakSuggestion :=
  if 4 ≤ es.length then
    match longestGapScan es with
    | (g, some t) =>
      if 30 ≤ g then
        [⟨t.strftimeHM, 20, 5, "recovery",
          "Extended recovery break - walk outside",
          "Heavy meeting day - extended recovery needed"⟩]
      else []
    | (_, none) => []
  else []

/-- Key relation of `sorted(suggestions, key=lambda x: x['priority'],
reverse=True)`: stable descending priority. -/
def prioGe (a b : BreakSuggestion) : Prop := b.priority ≤ a.priority

instance : DecidableRel prioGe :=
  fun a b => inferInstanceAs (Decidable (b.priority ≤ a.priority))

instance : IsTotal BreakSuggestion prioGe :=
  ⟨fun a b => Int.le_total b.priority a.priority⟩

instance : IsTrans BreakSuggestion prioGe :=
  ⟨fun _ _ _ h h' => le_trans h' h⟩

/-- `SuggestionEngine._find_break_opportunities` (the `stress_analysis`
argument is accepted but, as in the source, never read). -/
def findBreakOpportunities (rand : List String → String)
    (eventsSorted : List CalendarEvent) (_stress : StressResult) :
    List BreakSuggestion :=
  match eventsSorted with
  | [] => []
  | [m] => (singleBreaks m ++ heavyBreaks [m]).insertionSort prioGe
  | es =>
    (prepBreaks es ++ betweenBreaks rand es ++ postBreaks es ++
      heavyBreaks es).insertionSort prioGe

/-- `_generate_optimization_tips`.  The three `components.get(...)` reads for
`'lunch_disruption_penalty'`, `'overload_penalty'` and
`'long_meeting_penalty'` name keys this calculator's components dict never
contains, so `.get` yields `0` and those tips never fire; they are inlined as
`0 < 0` guards. -/
noncomputable def optimizationTips (stress : StressResult)
    (events : List CalendarEvent) : List String :=
  ((if 20 < stress.components.back_to_back_penalty then
      ["🔄 Consider adding 15-minute buffers between consecutive meetings"]
    else []) ++
   (if (0 : ℝ) < 0 then
      ["🍽️ Protect your lunch hour - avoid scheduling meetings 1-2 PM"]
    else []) ++
   (if (0 : ℝ) < 0 then
      ["⚡ Meeting overload detected - consider rescheduling non-critical meetings"]
    else []) ++
   (if (0 : ℝ) < 0 then
      ["⏰ Break long meetings into shorter sessions with breaks"]
    else []) ++
   (if 60 < stress.daily_stress_score then
      ["📋 Prepare meeting agendas in advance to reduce stress",
       "💧 Set hydration reminders throughout the day"]
    else []) ++
   (if 40 < stress.daily_stress_score then
      ["🧘 Consider starting the day with 5 minutes of mindfulness"]
    else []) ++
   (if stress.daily_stress_score ≤ 25 then
      ["🌟 Great schedule! Use this energy for creative or strategic work"]
    else []) ++
   (if 5 ≤ events.length then
      ["📱 Use \x27Do Not Disturb\x27 between meetings to maintain focus"]
    else if events.length = 1 then
      ["🎯 Single meeting day - perfect for deep work blocks"]
    else if events.length = 0 then
      ["🌟 No meetings today. Great for focused work!"]
    else [])).take 5

/-- Key relation of `sorted(plan, key=lambda x: x['time'])`. -/
def planTimeLe (a b : PlanEntry) : Prop := a.time ≤ b.time

instance : DecidableRel planTimeLe :=
  fun a b => inferInstanceAs (Decidable (a.time ≤ b.time))

instance : IsTotal PlanEntry planTimeLe :=
  ⟨fun a b => le_total a.time b.time⟩

instance : IsTrans PlanEntry planTimeLe :=
  ⟨fun _ _ _ h h' => le_trans h h'⟩

/-- `SuggestionEngine._create_daily_plan`. -/
def createDailyPlan (rand : List String → String)
    (eventsSorted : List CalendarEvent) (stress : StressResult) :
    List PlanEntry :=
  match eventsSorted with
  | [] => [⟨"09:00", "Start your productive day!", "focus"⟩]
  | first :: _ =>
    let morning :=
      if 9 ≤ first.start_time.hour then
        [(⟨"08:30", "Morning preparation - review agenda, set intentions",
           "preparation"⟩ : PlanEntry)]
      else []
    let breaks :=
      ((findBreakOpportunities rand eventsSorted stress).take 3).map
        (fun s => (⟨s.time, s.activity ++ " (" ++ toString s.duration ++ " min)",
                    "break"⟩ : PlanEntry))
    let closing :=
      match eventsSorted.getLast? with
      | some last =>
        [(⟨(last.end_time.addMinutes 30).strftimeHM,
           "Day wrap-up - review accomplishments, plan tomorrow", "closure"⟩ :
          PlanEntry)]
      | none => []
    (morning ++ breaks ++ closing).insertionSort planTimeLe

/-- `_create_summary`. -/
def createSummary (breaks : List BreakSuggestion) (tips : List String) :
    String :=
  if breaks.length = 0 then "No break opportunities found in schedule."
  else
    "Found " ++ toString breaks.length ++ " break opportunities" ++
      (if 0 < (breaks.filter (fun b => 4 ≤ b.priority)).length then
         " (" ++ toString (breaks.filter (fun b => 4 ≤ b.priority)).length ++
           " high priority)"
       else "") ++
      ". " ++ toString tips.length ++ " optimization tips available."

/-- `SuggestionEngine.generate_suggestions`. -/
noncomputable def generateSuggestions (rand : List String → String)
    (events : List CalendarEvent) (stressAnalysis : StressResult) :
    SuggestionResult :=
  match events with
  | [] =>
    { break_suggestions := []
      optimization_tips := ["Great! No meetings scheduled. Focus on deep work."]
      daily_plan := []
      summary := "No meetings scheduled." }
  | _ :: _ =>
    let eventsSorted := sortByStart events
    let breakSuggestions := findBreakOpportunities rand eventsSorted stressAnalysis
    let tips := optimizationTips stressAnalysis events
    { break_suggestions := breakSuggestions
      optimization_tips := tips
      daily_plan := createDailyPlan rand eventsSorted stressAnalysis
      summary := createSummary breakSuggestions tips }

/-! ## Claim-side definitions

Definitions written from the wording of the claims under test, for
comparison against the embedded code. -/

/-- Claim C3's threshold table as stated (score ≤ 25 ⇒ Low, ≤ 50 ⇒ Moderate,
≤ 75 ⇒ High, else Critical), rendered with the code's level names. -/
noncomputable def claimedStressLevel (s : ℝ) : String :=
  if s ≤ 25 then "Low Stress"
  else if s ≤ 50 then "Moderate Stress"
  else if s ≤ 75 then "High Stress"
  else "Critical Stress"

/-- Claim C4's multiplier as stated: participant tier (≤2 ⇒ 1.0, ≤5 ⇒ 1.3,
else 1.6) × content (high-stress ⇒ 1.5, low-stress ⇒ 0.7, else 1.0) ×
sentiment (positive ⇒ 0.8, negative ⇒ 1.3, else 1.0, keyword fallback). -/
noncomputable def claimedMultiplier (e : CalendarEvent) : ℝ :=
  (if e.participants ≤ 2 then 1.0
   else if e.participants ≤ 5 then 1.3
   else 1.6) *
  (if textMatches e highStressKeywords then 1.5
   else if textMatches e lowStressKeywords then 0.7
   else 1.0) *
  (if negWordCount e < posWordCount e then 0.8
   else if posWordCount e < negWordCount e then 1.3
   else 1.0)

/-- Claim C6's gap-tier table as stated: for a consecutive pair with gap ≥ 2
minutes, gap ∈ [2,5) ⇒ priority 2 / mindfulness / 2 min; [5,10) ⇒ 3 /
mindfulness / 3 min; [10,15) ⇒ 3 / recovery / 5 min; ≥ 15 ⇒ 4 / movement /
10 min (time/activity/reason fields filled as the engine fills them). -/
def claimGapBreak (rand : List String → String) (cur next : CalendarEvent) :
    Option BreakSuggestion :=
  let gap := gapQ cur next
  if 2 ≤ gap ∧ gap < 5 then
    some ⟨cur.end_time.strftimeHM, 2, 2, "mindfulness",
          getSafeActivity rand "mindfulness" 2, getBreakReason cur next gap⟩
  else if 5 ≤ gap ∧ gap < 10 then
    some ⟨cur.end_time.strftimeHM, 3, 3, "mindfulness",
          getSafeActivity rand "mindfulness" 3, getBreakReason cur next gap⟩
  else if 10 ≤ gap ∧ gap < 15 then
    some ⟨cur.end_time.strftimeHM, 5, 3, "recovery",
          getSafeActivity rand "recovery" 5, getBreakReason cur next gap⟩
  else if 15 ≤ gap then
    some ⟨cur.end_time.strftimeHM, 10, 4, "movement",
          getSafeActivity rand "movement" 10, getBreakReason cur next gap⟩
  else none

/-- The last element of `prev :: mid`. -/
def lastOf (prev : CalendarEvent) : List CalendarEvent → CalendarEvent
  | [] => prev
  | a :: mid => lastOf a mid

/-- A minute-granularity event (times are minutes from the model epoch),
used for concrete instances. -/
def evAt (s t : ℤ) : CalendarEvent :=
  { id := "", title := "", start_time := ⟨s * 60⟩, end_time := ⟨t * 60⟩ }

/-- A named event on 2024-01-02 (a Tuesday), used for concrete instances. -/
def evOn (i : ℕ) (h1 m1 h2 m2 : ℕ) : CalendarEvent :=
  { id := toString i, title := "ev" ++ toString i
    start_time := .ofCivil 2024 1 2 h1 m1 0
    end_time := .ofCivil 2024 1 2 h2 m2 0 }

/-- A deterministic stand-in for `random.choice`. -/
def headRand (l : List String) : String := l.headD ""

/-- A stress-analysis value for concrete suggestion-engine instances. -/
noncomputable def dummyStress : StressResult :=
  { daily_stress_score := 0
    stress_level := "No Meetings"
    components :=
      { base_meeting_stress := 0, back_to_back_penalty := 0
        clustering_stress := 0, recovery_deficit := 0
        intensity_clustering := 0, circadian_factor := 1.0
        carryover_factor := 1.0 }
    recommendations := []
    meeting_analysis := none }

/-- Claim C5's original eleven-meeting chain: one long 09:00–10:40 meeting
followed by ten 5-minute meetings at 5-minute gaps — a single back-to-back
chain of length 11. -/
def cexChain : List CalendarEvent :=
  [evAt 540 640, evAt 645 650, evAt 655 660, evAt 665 670, evAt 675 680,
   evAt 685 690, evAt 695 700, evAt 705 710, evAt 715 720, evAt 725 730,
   evAt 735 740]

/-- The meeting claim C5 adds: 09:01–09:02, back-to-back with (indeed inside)
its sorted predecessor `evAt 540 640`. -/
def cexX : CalendarEvent := evAt 541 542

/-- The day with `cexX` inserted (sorted by start time). -/
def cexChain' : List CalendarEvent :=
  [evAt 540 640, cexX, evAt 645 650, evAt 655 660, evAt 665 670, evAt 675 680,
   evAt 685 690, evAt 695 700, evAt 705 710, evAt 715 720, evAt 725 730,
   evAt 735 740]

/-- The one malformed-on-purpose item of claim C9's counterexample: equal
start and end timestamps. -/
def degenerateItem : Json :=
  .obj [("start", .str "2024-01-02T10:00:00"),
        ("end", .str "2024-01-02T10:00:00"),
        ("title", .str "X")]

/-- The event `createEventFromCustom` builds from `degenerateItem`. -/
def degenerateEvent : CalendarEvent :=
  { id := "hash:X@2024-01-02T10:00:00"
    title := "X"
    start_time := ⟨1704189600⟩
    end_time := ⟨1704189600⟩
    event_type := "other"
    description := some ""
    location := some ""
    participants := 0
    attendees := some []
    organizer := some ""
    is_all_day := false
    is_online_meeting := false
    importance := "normal"
    status := "confirmed"
    recurring := false
    reminder_minutes := 15
    categories := some [] }

/-- A four-participant, keyword-free 09:00-09:30 meeting (claim C4's
counterexample input: no keyword list matches, neutral sentiment, outside the
lunch window). -/
def ev4p : CalendarEvent := { evAt 540 570 with participants := 4 }

/-! ## Helper lemmas -/

theorem strAppend_ne (p a b : String) (h : a.data ≠ b.data) : p ++ a ≠ p ++ b := by
  intro hc
  apply h
  have := congrArg String.data hc
  simp only [String.data_append] at this
  exact List.append_cancel_left this

/-! ## Claims C1, C8, C9, C10 -/

/-- C1 (code bug): instead of recovering the events, parsing the exported
JSON yields the empty list for every input: `export_events_to_json` writes
the timestamps under `start_time`/`end_time` while
`_create_event_from_custom` reads `start`/`end`, so every exported item
raises `KeyError` and is skipped. -/
theorem parse_export_loses_events (now : DateTime) (events : List CalendarEvent) :
    parseCalendar (exportEventsToJson now events) = .ok [] := by
  have hitem : ∀ e : CalendarEvent, createEventFromCustom e.toDictJson = none :=
    fun _ => rfl
  have hnil :
      (events.map CalendarEvent.toDictJson).filterMap createEventFromCustom = [] := by
    rw [List.filterMap_map]
    exact List.filterMap_eq_nil_iff.mpr fun e _ => hitem e
  simp [parseCalendar, detectFormat, exportEventsToJson, hasListKey, lookupObj,
    parseCustomCalendar, hnil]

/-- C8 (amended): on an empty event list `generate_suggestions` returns no
break suggestions, exactly one informational tip, an *empty* `daily_plan`
(the early return bypasses the plan builder), and the no-meetings summary;
the daily-plan builder itself, called directly on an empty list, returns only
the default "Start your productive day!" entry. -/
theorem generateSuggestions_empty_behavior (rand : List String → String)
    (stress : StressResult) :
    generateSuggestions rand [] stress =
      { break_suggestions := []
        optimization_tips := ["Great! No meetings scheduled. Focus on deep work."]
        daily_plan := []
        summary := "No meetings scheduled." } ∧
    createDailyPlan rand [] stress =
      [⟨"09:00", "Start your productive day!", "focus"⟩] :=
  ⟨rfl, rfl⟩

/-- C8 counterexample: as stated the claim is false — for the empty calendar
the returned `daily_plan` is `[]`, not the one-element default plan. -/
theorem daily_plan_empty_cex :
    (generateSuggestions headRand [] dummyStress).daily_plan = [] ∧
    (generateSuggestions headRand [] dummyStress).daily_plan ≠
      [⟨"09:00", "Start your productive day!", "focus"⟩] :=
  ⟨rfl, by simp [generateSuggestions]⟩

/-- C9 counterexample: the normalizer's parse enforces no `start < end`
invariant — an item with equal start and end timestamps parses successfully
into an event with `start_time = end_time` and `duration_minutes = 0`. -/
theorem parse_allows_degenerate_event :
    parseCalendar (.obj [("events", .arr [degenerateItem])]) =
      .ok [degenerateEvent] ∧
    ¬ degenerateEvent.start_time < degenerateEvent.end_time ∧
    degenerateEvent.duration_minutes = 0 := by
  refine ⟨by decide, by decide, by decide⟩

/-- C9 (amended): parse does not enforce `start < end` (see the
counterexample); the separate validation step is what reports the violation,
flagging `"Start time must be before end time"` for an event exactly when
`start_time ≥ end_time`. -/
theorem validate_flags_nonpositive_span (e : CalendarEvent) (i : ℕ) :
    ("Event " ++ toString i ++ ": Start time must be before end time") ∈
        validateEvent e i ↔
      e.end_time.seconds ≤ e.start_time.seconds := by
  have h1 : ("Event " ++ toString i ++ ": Start time must be before end time") ≠
      "Event " ++ toString i ++ ": Missing title" :=
    strAppend_ne _ _ _ (by decide)
  have h3 : ("Event " ++ toString i ++ ": Start time must be before end time") ≠
      "Event " ++ toString i ++ ": Invalid duration" :=
    strAppend_ne _ _ _ (by decide)
  have h4 : ("Event " ++ toString i ++ ": Start time must be before end time") ≠
      "Event " ++ toString i ++ ": Invalid participant count" :=
    strAppend_ne _ _ _ (by decide)
  by_cases hA : e.title = "" <;>
    by_cases hB : e.end_time.seconds ≤ e.start_time.seconds <;>
      by_cases hC : e.duration_minutes ≤ 0 <;>
        by_cases hD : e.participants < 0 <;>
          simp [validateEvent, hA, hB, hC, hD, h1, h3, h4]

/-- The break list produced by `_find_break_opportunities` is always in
non-increasing priority order (it ends with a stable descending sort). -/
theorem findBreaks_chain (rand : List String → String)
    (l : List CalendarEvent) (stress : StressResult) :
    List.Chain' prioGe (findBreakOpportunities rand l stress) := by
  match l with
  | [] => exact List.chain'_nil
  | [m] => exact (List.sorted_insertionSort prioGe _).chain'
  | a :: b :: rest => exact (List.sorted_insertionSort prioGe _).chain'

/-- C10: for every input the `break_suggestions` list returned by
`generate_suggestions` is sorted in non-increasing priority order: each
element's priority is ≥ its successor's. -/
theorem break_suggestions_priority_sorted (rand : List String → String)
    (stress : StressResult) (events : List CalendarEvent)
    (h : events ≠ []) :
    List.Chain' prioGe (generateSuggestions rand events stress).break_suggestions := by
  cases events with
  | nil => exact absurd rfl h
  | cons e es =>
    simpa [generateSuggestions] using
      findBreaks_chain rand (sortByStart (e :: es)) stress

/-- C10 witness at a concrete two-meeting day. -/
theorem break_suggestions_priority_sorted_witness :
    List.Chain' prioGe
      (generateSuggestions headRand [evOn 1 9 0 9 30, evOn 2 9 40 10 30]
        dummyStress).break_suggestions :=
  break_suggestions_priority_sorted headRand dummyStress _ (by simp)

/-! ## Claim C7 -/

/-- C7: (a) a mapping matching none of the three schema keys yields the single
explicit unsupported-format error; (b) within a recognized schema (shown for
the custom one) each item is parsed independently and a malformed item is
dropped (`filterMap`) while the rest of the batch succeeds; (c) detection
tests the keys in source order — an `"items"` list wins over everything, then
a `"value"` list, then an `"events"` list, and a bare list falls back to the
custom schema. -/
theorem parse_failure_modes :
    (∀ kvs, hasListKey kvs "items" = false → hasListKey kvs "value" = false →
      hasListKey kvs "events" = false →
      parseCalendar (.obj kvs) = .error "Unsupported calendar format detected") ∧
    (∀ kvs items, hasListKey kvs "items" = false → hasListKey kvs "value" = false →
      lookupObj kvs "events" = some (.arr items) →
      parseCalendar (.obj kvs) = .ok (items.filterMap createEventFromCustom)) ∧
    (∀ kvs, hasListKey kvs "items" = true →
      detectFormat (.obj kvs) = .ok "google") ∧
    (∀ kvs, hasListKey kvs "items" = false → hasListKey kvs "value" = true →
      detectFormat (.obj kvs) = .ok "outlook") ∧
    (∀ kvs, hasListKey kvs "items" = false → hasListKey kvs "value" = false →
      hasListKey kvs "events" = true → detectFormat (.obj kvs) = .ok "custom") ∧
    (∀ xs : List Json, xs.any (·.eqStr "items") = false →
      xs.any (·.eqStr "value") = false → xs.any (·.eqStr "events") = false →
      detectFormat (.arr xs) = .ok "custom") := by
  refine ⟨?_, ?_, ?_, ?_, ?_, ?_⟩
  · intro kvs h1 h2 h3
    simp [parseCalendar, detectFormat, h1, h2, h3]
  · intro kvs items h1 h2 h3
    have h4 : hasListKey kvs "events" = true := by simp [hasListKey, h3]
    simp [parseCalendar, detectFormat, h1, h2, h4, parseCustomCalendar, h3]
  · intro kvs h1
    simp [detectFormat, h1]
  · intro kvs h1 h2
    simp [detectFormat, h1, h2]
  · intro kvs h1 h2 h3
    simp [detectFormat, h1, h2, h3]
  · intro xs h1 h2 h3
    simp [detectFormat, h1, h2, h3]

/-- C7 witness: concrete instances of all six conjuncts (the second shows a
malformed `null` item skipped next to a well-formed one). -/
theorem parse_failure_modes_witness :
    parseCalendar (.obj [("foo", .null)]) =
      .error "Unsupported calendar format detected" ∧
    parseCalendar (.obj [("events", .arr [Json.null, degenerateItem])]) =
      .ok ([Json.null, degenerateItem].filterMap createEventFromCustom) ∧
    detectFormat (.obj [("items", .arr []), ("events", .arr [])]) = .ok "google" ∧
    detectFormat (.obj [("value", .arr []), ("events", .arr [])]) = .ok "outlook" ∧
    detectFormat (.obj [("events", .arr [])]) = .ok "custom" ∧
    detectFormat (.arr [degenerateItem]) = .ok "custom" :=
  ⟨parse_failure_modes.1 _ rfl rfl rfl,
   parse_failure_modes.2.1 _ [Json.null, degenerateItem] rfl rfl rfl,
   parse_failure_modes.2.2.1 _ rfl,
   parse_failure_modes.2.2.2.1 _ rfl rfl,
   parse_failure_modes.2.2.2.2.1 _ rfl rfl rfl,
   parse_failure_modes.2.2.2.2.2 _ rfl rfl rfl⟩

/-! ## Claim C3 -/

/-- C3 (amended): the implemented thresholds are `≤20` Low Stress, `≤40`
Moderate Stress, `≤60` Elevated Stress, `≤80` High Stress, else Critical
Stress (five levels, not the claimed 25/50/75 bands); the level is a function
of the clamped score alone; and an empty day yields level `"No Meetings"`
with score 0. -/
theorem stress_level_thresholds :
    (∀ (s : ℝ) (es : List CalendarEvent), s ≤ 20 →
      (getStressLevelAndRecommendations s es).1 = "Low Stress") ∧
    (∀ (s : ℝ) (es : List CalendarEvent), 20 < s → s ≤ 40 →
      (getStressLevelAndRecommendations s es).1 = "Moderate Stress") ∧
    (∀ (s : ℝ) (es : List CalendarEvent), 40 < s → s ≤ 60 →
      (getStressLevelAndRecommendations s es).1 = "Elevated Stress") ∧
    (∀ (s : ℝ) (es : List CalendarEvent), 60 < s → s ≤ 80 →
      (getStressLevelAndRecommendations s es).1 = "High Stress") ∧
    (∀ (s : ℝ) (es : List CalendarEvent), 80 < s →
      (getStressLevelAndRecommendations s es).1 = "Critical Stress") ∧
    (calculateDailyStress []).stress_level = "No Meetings" ∧
    (calculateDailyStress []).daily_stress_score = 0 := by
  refine ⟨?_, ?_, ?_, ?_, ?_, rfl, rfl⟩
  · intro s es h
    simp only [getStressLevelAndRecommendations]
    rw [if_pos h]
  · intro s es h1 h2
    simp only [getStressLevelAndRecommendations]
    rw [if_neg (by linarith), if_pos h2]
  · intro s es h1 h2
    simp only [getStressLevelAndRecommendations]
    rw [if_neg (by linarith), if_neg (by linarith), if_pos h2]
  · intro s es h1 h2
    simp only [getStressLevelAndRecommendations]
    rw [if_neg (by linarith), if_neg (by linarith), if_neg (by linarith),
      if_pos h2]
  · intro s es h1
    simp only [getStressLevelAndRecommendations]
    rw [if_neg (by linarith), if_neg (by linarith), if_neg (by linarith),
      if_neg (by linarith)]

/-- C3 witness: score 30 classifies as Moderate Stress. -/
theorem stress_level_thresholds_witness :
    (getStressLevelAndRecommendations 30 []).1 = "Moderate Stress" :=
  stress_level_thresholds.2.1 30 [] (by norm_num) (by norm_num)

/-- C3 counterexample: at score 25 the claim's table says Low, but the code
classifies Moderate Stress (its Low band ends at 20). -/
theorem stress_level_at_25_cex :
    (getStressLevelAndRecommendations 25 []).1 = "Moderate Stress" ∧
    claimedStressLevel 25 = "Low Stress" ∧
    (getStressLevelAndRecommendations 25 []).1 ≠ claimedStressLevel 25 := by
  have h1 : (getStressLevelAndRecommendations 25 []).1 = "Moderate Stress" := by
    simp only [getStressLevelAndRecommendations]
    rw [if_neg (by norm_num), if_pos (by norm_num)]
  have h2 : claimedStressLevel 25 = "Low Stress" := by
    simp only [claimedStressLevel]
    rw [if_pos (by norm_num)]
  refine ⟨h1, h2, ?_⟩
  rw [h1, h2]
  decide

/-! ## Claim C4 -/

/-- C4 (amended): the per-meeting multiplier is the product of SIX factors,
not three: participant tier (≤2 ⇒ 1.0, ≤5 ⇒ 1.2, else 1.5 — not 1.3/1.6), a
participant weight `log2(max(count, 2))`, keyword-fallback sentiment
(positive ⇒ 0.9 — not 0.8 —, negative ⇒ 1.3, neutral or blank ⇒ 1.0),
content complexity (high ⇒ 1.4, medium ⇒ 1.2, low ⇒ 0.8 — not 1.5/0.7 —,
else 1.0), a recurring/urgent modifier (0.9/1.3/1.0), and a lunch-window
penalty (1.3/1.0). -/
theorem meeting_difficulty_factors :
    (∀ e, meetingTypeDifficulty e =
      baseDifficulty e * participantWeight e * analyzeSentiment e *
        analyzeContentComplexity e * analyzeRecurringPattern e *
        lunchPenalty e) ∧
    (∀ e : CalendarEvent, e.participants ≤ 2 → baseDifficulty e = 1.0) ∧
    (∀ e : CalendarEvent, 2 < e.participants → e.participants ≤ 5 →
      baseDifficulty e = 1.2) ∧
    (∀ e : CalendarEvent, 5 < e.participants → baseDifficulty e = 1.5) ∧
    (∀ e, participantWeight e = Real.logb 2 ((max e.participants 2 : ℤ) : ℝ)) ∧
    (∀ e, textMatches e highStressKeywords = true →
      analyzeContentComplexity e = 1.4) ∧
    (∀ e, textMatches e highStressKeywords = false →
      textMatches e mediumStressKeywords = true →
      analyzeContentComplexity e = 1.2) ∧
    (∀ e, textMatches e highStressKeywords = false →
      textMatches e mediumStressKeywords = false →
      textMatches e lowStressKeywords = true →
      analyzeContentComplexity e = 0.8) ∧
    (∀ e, textMatches e highStressKeywords = false →
      textMatches e mediumStressKeywords = false →
      textMatches e lowStressKeywords = false →
      analyzeContentComplexity e = 1.0) ∧
    (∀ e, strTrim (eventText e) = "" → analyzeSentiment e = 1.0) ∧
    (∀ e, strTrim (eventText e) ≠ "" → negWordCount e < posWordCount e →
      analyzeSentiment e = 0.9) ∧
    (∀ e, strTrim (eventText e) ≠ "" → posWordCount e < negWordCount e →
      analyzeSentiment e = 1.3) ∧
    (∀ e, strTrim (eventText e) ≠ "" → posWordCount e = negWordCount e →
      analyzeSentiment e = 1.0) ∧
    (∀ e, textMatches e recurringKeywords = true →
      analyzeRecurringPattern e = 0.9) ∧
    (∀ e, textMatches e recurringKeywords = false →
      textMatches e urgentKeywords = true → analyzeRecurringPattern e = 1.3) ∧
    (∀ e, textMatches e recurringKeywords = false →
      textMatches e urgentKeywords = false → analyzeRecurringPattern e = 1.0) ∧
    (∀ e, isLunchTime e = true → lunchPenalty e = 1.3) ∧
    (∀ e, isLunchTime e = false → lunchPenalty e = 1.0) := by
  refine ⟨fun e => rfl, ?_, ?_, ?_, fun e => rfl, ?_, ?_, ?_, ?_, ?_, ?_, ?_,
    ?_, ?_, ?_, ?_, ?_, ?_⟩
  · intro e h
    simp only [baseDifficulty]
    rw [if_pos h]
  · intro e h1 h2
    simp only [baseDifficulty]
    rw [if_neg (by omega), if_pos h2]
  · intro e h1
    simp only [baseDifficulty]
    rw [if_neg (by omega), if_neg (by omega)]
  · intro e h
    simp only [analyzeContentComplexity]
    rw [if_pos h]
  · intro e h1 h2
    simp only [analyzeContentComplexity]
    rw [if_neg (by simp [h1]), if_pos h2]
  · intro e h1 h2 h3
    simp only [analyzeContentComplexity]
    rw [if_neg (by simp [h1]), if_neg (by simp [h2]), if_pos h3]
  · intro e h1 h2 h3
    simp only [analyzeContentComplexity]
    rw [if_neg (by simp [h1]), if_neg (by simp [h2]), if_neg (by simp [h3])]
  · intro e h
    simp only [analyzeSentiment]
    rw [if_pos h]
  · intro e h1 h2
    simp only [analyzeSentiment]
    rw [if_neg h1, if_pos h2]
  · intro e h1 h2
    simp only [analyzeSentiment]
    rw [if_neg h1, if_neg (by omega), if_pos h2]
  · intro e h1 h2
    simp only [analyzeSentiment]
    rw [if_neg h1, if_neg (by omega), if_neg (by omega)]
  · intro e h
    simp only [analyzeRecurringPattern]
    rw [if_pos h]
  · intro e h1 h2
    simp only [analyzeRecurringPattern]
    rw [if_neg (by simp [h1]), if_pos h2]
  · intro e h1 h2
    simp only [analyzeRecurringPattern]
    rw [if_neg (by simp [h1]), if_neg (by simp [h2])]
  · intro e h
    simp only [lunchPenalty]
    rw [if_pos h]
  · intro e h
    simp only [lunchPenalty]
    rw [if_neg (by simp [h])]

/-- C4 witness: the factor table evaluated on the concrete meeting `ev4p`
(four participants, no keyword matches). -/
theorem meeting_difficulty_factors_witness :
    baseDifficulty ev4p = 1.2 ∧ analyzeContentComplexity ev4p = 1.0 ∧
    analyzeRecurringPattern ev4p = 1.0 ∧ lunchPenalty ev4p = 1.0 :=
  ⟨meeting_difficulty_factors.2.2.1 ev4p (by decide) (by decide),
   meeting_difficulty_factors.2.2.2.2.2.2.2.2.1 ev4p (by decide) (by decide)
     (by decide),
   meeting_difficulty_factors.2.2.2.2.2.2.2.2.2.2.2.2.2.2.2.1 ev4p (by decide)
     (by decide),
   meeting_difficulty_factors.2.2.2.2.2.2.2.2.2.2.2.2.2.2.2.2.2 ev4p
     (by decide)⟩

/-- C4 counterexample: on `ev4p` the code's multiplier is
`1.2 · log2 4 = 2.4`, while the claim's three-factor table gives `1.3`. -/
theorem meeting_difficulty_cex :
    meetingTypeDifficulty ev4p = 2.4 ∧ claimedMultiplier ev4p = 1.3 ∧
    meetingTypeDifficulty ev4p ≠ claimedMultiplier ev4p := by
  have hbase : baseDifficulty ev4p = 1.2 := by
    simp only [baseDifficulty]
    rw [if_neg (by decide), if_pos (by decide)]
  have hw : participantWeight ev4p = 2 := by
    have h4 : ((max ev4p.participants 2 : ℤ) : ℝ) = (2 : ℝ) ^ (2 : ℕ) := by
      norm_num [ev4p, evAt]
    rw [participantWeight, h4, Real.logb_pow,
      Real.logb_self_eq_one (by norm_num)]
    norm_num
  have hsent : analyzeSentiment ev4p = 1.0 := by
    simp only [analyzeSentiment]
    rw [if_neg (by decide), if_neg (by decide), if_neg (by decide)]
  have hcont : analyzeContentComplexity ev4p = 1.0 := by
    simp only [analyzeContentComplexity]
    rw [if_neg (by decide), if_neg (by decide), if_neg (by decide)]
  have hrec : analyzeRecurringPattern ev4p = 1.0 := by
    simp only [analyzeRecurringPattern]
    rw [if_neg (by decide), if_neg (by decide)]
  have hlunch : lunchPenalty ev4p = 1.0 := by
    simp only [lunchPenalty]
    rw [if_neg (by decide)]
  have hmtd : meetingTypeDifficulty ev4p = 2.4 := by
    rw [meetingTypeDifficulty, hbase, hw, hsent, hcont, hrec, hlunch]
    norm_num
  have hclaim : claimedMultiplier ev4p = 1.3 := by
    simp only [claimedMultiplier]
    rw [if_neg (by decide), if_pos (by decide), if_neg (by decide),
      if_neg (by decide), if_neg (by decide), if_neg (by decide)]
    norm_num
  exact ⟨hmtd, hclaim, by rw [hmtd, hclaim]; norm_num⟩

/-! ## Claim C6 -/

/-- The code's per-pair gap break coincides with the claim's tier table. -/
theorem claimGapBreak_eq (rand : List String → String) (a b : CalendarEvent) :
    claimGapBreak rand a b =
      if 2 ≤ gapQ a b then some (gapBreak rand a b) else none := by
  by_cases h15 : 15 ≤ gapQ a b
  · have h10 : (10 : ℚ) ≤ gapQ a b := by linarith
    have h5 : (5 : ℚ) ≤ gapQ a b := by linarith
    have h2 : (2 : ℚ) ≤ gapQ a b := by linarith
    simp only [claimGapBreak, gapBreak]
    rw [if_neg (by rintro ⟨_, h⟩; linarith), if_neg (by rintro ⟨_, h⟩; linarith),
      if_neg (by rintro ⟨_, h⟩; linarith), if_pos h15, if_pos h2, if_pos h15]
  · by_cases h10 : 10 ≤ gapQ a b
    · have h2 : (2 : ℚ) ≤ gapQ a b := by linarith
      simp only [claimGapBreak, gapBreak]
      rw [if_neg (by rintro ⟨_, h⟩; linarith), if_neg (by rintro ⟨_, h⟩; linarith),
        if_pos ⟨h10, by linarith⟩, if_pos h2, if_neg h15, if_pos h10]
    · by_cases h5 : 5 ≤ gapQ a b
      · have h2 : (2 : ℚ) ≤ gapQ a b := by linarith
        simp only [claimGapBreak, gapBreak]
        rw [if_neg (by rintro ⟨_, h⟩; linarith), if_pos ⟨h5, by linarith⟩,
          if_pos h2, if_neg h15, if_neg h10, if_pos h5]
      · by_cases h2 : 2 ≤ gapQ a b
        · simp only [claimGapBreak, gapBreak]
          rw [if_pos ⟨h2, by linarith⟩, if_pos h2, if_neg h15, if_neg h10,
            if_neg h5]
        · simp only [claimGapBreak]
          rw [if_neg (by rintro ⟨h, _⟩; exact h2 h),
            if_neg (by rintro ⟨h, _⟩; linarith),
            if_neg (by rintro ⟨h, _⟩; linarith), if_neg h15, if_neg h2]

/-- The between-meetings loop emits exactly the claim's tier break once per
consecutive pair with gap ≥ 2. -/
theorem betweenBreaks_eq (rand : List String → String) :
    ∀ l : List CalendarEvent,
      betweenBreaks rand l =
        (consecPairs l).filterMap (fun p => claimGapBreak rand p.1 p.2)
  | [] => rfl
  | [_] => rfl
  | a :: b :: rest => by
    have ih := betweenBreaks_eq rand (b :: rest)
    simp only [betweenBreaks, consecPairs, List.tail_cons, List.zip_cons_cons]
      at ih ⊢
    rw [List.filterMap_cons, claimGapBreak_eq, ih]
    by_cases h : 2 ≤ gapQ a b
    · rw [if_pos h, if_pos h]
      rfl
    · rw [if_neg h, if_neg h]
      rfl

/-- C6: for a day of N ≥ 2 sorted events, the emitted break list is (up to
the final priority sort, hence as a multiset) the pre-first-meeting
preparation break, THE CLAIM'S TIER BREAK EXACTLY ONCE PER consecutive pair
with gap ≥ 2 minutes ([2,5) ⇒ priority 2/mindfulness/2 min, [5,10) ⇒
3/mindfulness/3, [10,15) ⇒ 3/recovery/5, ≥15 ⇒ 4/movement/10), the
post-last-meeting recovery break, and the heavy-day extra break. -/
theorem gap_coverage (rand : List String → String) (stress : StressResult)
    (es : List CalendarEvent) (h2 : 2 ≤ es.length)
    (hsorted : List.Chain' startLe es) :
    (findBreakOpportunities rand es stress).Perm
      (prepBreaks es ++
        (consecPairs es).filterMap (fun p => claimGapBreak rand p.1 p.2) ++
        postBreaks es ++ heavyBreaks es) := by
  match es with
  | a :: b :: rest =>
    rw [← betweenBreaks_eq]
    have hperm :
        ((prepBreaks (a :: b :: rest) ++ betweenBreaks rand (a :: b :: rest) ++
            postBreaks (a :: b :: rest) ++
            heavyBreaks (a :: b :: rest)).insertionSort prioGe).Perm
          (prepBreaks (a :: b :: rest) ++ betweenBreaks rand (a :: b :: rest) ++
            postBreaks (a :: b :: rest) ++ heavyBreaks (a :: b :: rest)) :=
      List.perm_insertionSort prioGe _
    exact hperm

/-- C6 witness: a concrete sorted two-meeting day. -/
theorem gap_coverage_witness :
    ((findBreakOpportunities headRand [evOn 1 9 0 9 30, evOn 2 9 40 10 30]
        dummyStress).Perm
      (prepBreaks [evOn 1 9 0 9 30, evOn 2 9 40 10 30] ++
        (consecPairs [evOn 1 9 0 9 30, evOn 2 9 40 10 30]).filterMap
          (fun p => claimGapBreak headRand p.1 p.2) ++
        postBreaks [evOn 1 9 0 9 30, evOn 2 9 40 10 30] ++
        heavyBreaks [evOn 1 9 0 9 30, evOn 2 9 40 10 30])) :=
  gap_coverage headRand dummyStress _ (by decide)
    (List.chain'_cons.mpr ⟨by decide, List.chain'_singleton _⟩)

/-! ## Claim C2 -/

/-- `round(x, 1)` keeps `[0, 100]` invariant. -/
theorem pyRound1_bounds {x : ℝ} (h0 : 0 ≤ x) (h100 : x ≤ 100) :
    0 ≤ pyRound1 x ∧ pyRound1 x ≤ 100 := by
  have l1 : (0 : ℤ) ≤ ⌊10 * x + 1 / 2⌋ := Int.le_floor.mpr (by push_cast; linarith)
  have l2 : ⌊10 * x + 1 / 2⌋ ≤ 1000 := by
    have hle : (10 * x + 1 / 2 : ℝ) ≤ 1000.5 := by linarith
    have hfl : ⌊(1000.5 : ℝ)⌋ = 1000 := by
      rw [Int.floor_eq_iff]
      norm_num
    calc ⌊10 * x + 1 / 2⌋ ≤ ⌊(1000.5 : ℝ)⌋ := Int.floor_le_floor hle
    _ = 1000 := hfl
  constructor
  · exact div_nonneg (by exact_mod_cast l1) (by norm_num)
  · rw [pyRound1, div_le_iff₀ (by norm_num : (0:ℝ) < 10)]
    calc ((⌊10 * x + 1 / 2⌋ : ℤ) : ℝ) ≤ 1000 := by exact_mod_cast l2
    _ = 100 * 10 := by norm_num

/-- C2: for every valid event list (start ≤ end throughout) the daily stress
score lies in [0, 100]: the empty day scores 0 and every other day is clamped
by `min(100, max(0, raw))` before rounding. -/
theorem daily_stress_score_bounded (events : List CalendarEvent)
    (prev : Option ℝ) (h : ∀ e ∈ events, e.start_time ≤ e.end_time) :
    0 ≤ (calculateDailyStress events prev).daily_stress_score ∧
      (calculateDailyStress events prev).daily_stress_score ≤ 100 := by
  cases events with
  | nil =>
    constructor
    · exact le_refl 0
    · show (0 : ℝ) ≤ 100
      norm_num
  | cons e es =>
    simp only [calculateDailyStress]
    exact pyRound1_bounds (le_min (by norm_num) (le_max_left _ _))
      (min_le_left _ _)

/-- C2 witness at a concrete one-meeting day. -/
theorem daily_stress_score_bounded_witness :
    0 ≤ (calculateDailyStress [evOn 1 9 0 9 30] none).daily_stress_score ∧
      (calculateDailyStress [evOn 1 9 0 9 30] none).daily_stress_score ≤ 100 :=
  daily_stress_score_bounded [evOn 1 9 0 9 30] none (by decide)

/-! ## Claim C5 — helper lemmas -/

/-- `x ** 1.5` as `x · √x` on nonnegative reals. -/
theorem rpow15_eq {x : ℝ} (hx : 0 ≤ x) : x ^ (1.5 : ℝ) = x * Real.sqrt x := by
  rcases eq_or_lt_of_le hx with h | h
  · rw [← h, Real.zero_rpow (by norm_num), Real.sqrt_zero, mul_zero]
  · rw [show (1.5 : ℝ) = 1 + 1 / 2 by norm_num, Real.rpow_add h, Real.rpow_one,
      ← Real.sqrt_eq_rpow]

theorem mul_sqrt_superadd {a b : ℝ} (ha : 0 ≤ a) (hb : 0 ≤ b) :
    a * Real.sqrt a + b * Real.sqrt b ≤ (a + b) * Real.sqrt (a + b) := by
  have h1 : Real.sqrt a ≤ Real.sqrt (a + b) := Real.sqrt_le_sqrt (by linarith)
  have h2 : Real.sqrt b ≤ Real.sqrt (a + b) := Real.sqrt_le_sqrt (by linarith)
  have h3 : a * Real.sqrt a ≤ a * Real.sqrt (a + b) :=
    mul_le_mul_of_nonneg_left h1 ha
  have h4 : b * Real.sqrt b ≤ b * Real.sqrt (a + b) :=
    mul_le_mul_of_nonneg_left h2 hb
  nlinarith [Real.sqrt_nonneg (a + b)]

theorem rpow15_superadd {a b : ℝ} (ha : 0 ≤ a) (hb : 0 ≤ b) :
    a ^ (1.5 : ℝ) + b ^ (1.5 : ℝ) ≤ (a + b + 1) ^ (1.5 : ℝ) := by
  calc a ^ (1.5 : ℝ) + b ^ (1.5 : ℝ) ≤ (a + b) ^ (1.5 : ℝ) := by
        rw [rpow15_eq ha, rpow15_eq hb, rpow15_eq (by linarith)]
        exact mul_sqrt_superadd ha hb
    _ ≤ (a + b + 1) ^ (1.5 : ℝ) :=
        Real.rpow_le_rpow (by linarith) (by linarith) (by norm_num)

theorem chainPenalty_nonneg (n : ℕ) : 0 ≤ chainPenalty n := by
  rw [chainPenalty]
  split_ifs
  · positivity
  · exact le_refl 0

theorem chainPenalty_mono {n m : ℕ} (h : n ≤ m) :
    chainPenalty n ≤ chainPenalty m := by
  rw [chainPenalty, chainPenalty]
  split_ifs with h1 h2
  · exact mul_le_mul_of_nonneg_left
      (Real.rpow_le_rpow (by positivity) (by exact_mod_cast h) (by norm_num))
      (by norm_num)
  · omega
  · positivity
  · exact le_refl 0

theorem chainPenalty_superadd (c k : ℕ) :
    chainPenalty c + chainPenalty k ≤ chainPenalty (c + k + 1) := by
  by_cases hc : 2 ≤ c
  · by_cases hk : 2 ≤ k
    · rw [chainPenalty, chainPenalty, chainPenalty, if_pos hc, if_pos hk,
        if_pos (show 2 ≤ c + k + 1 by omega)]
      push_cast
      linarith [rpow15_superadd (show (0:ℝ) ≤ (c:ℕ) by positivity)
        (show (0:ℝ) ≤ (k:ℕ) by positivity)]
    · have hk0 : chainPenalty k = 0 := by rw [chainPenalty, if_neg hk]
      rw [hk0, add_zero]
      exact chainPenalty_mono (by omega)
  · have hc0 : chainPenalty c = 0 := by rw [chainPenalty, if_neg hc]
    rw [hc0, zero_add]
    exact chainPenalty_mono (by omega)

theorem bbGo_nonneg (l : List CalendarEvent) :
    ∀ (prev : CalendarEvent) (c : ℕ), 0 ≤ bbGo prev c l := by
  induction l with
  | nil => intro prev c; exact chainPenalty_nonneg c
  | cons m rest ih =>
    intro prev c
    simp only [bbGo]
    split_ifs
    · exact ih m (c + 1)
    · exact add_nonneg (chainPenalty_nonneg c) (ih m 1)

theorem bbGo_mono (l : List CalendarEvent) :
    ∀ (prev : CalendarEvent) {c c' : ℕ}, c ≤ c' →
      bbGo prev c l ≤ bbGo prev c' l := by
  induction l with
  | nil => intro prev c c' h; exact chainPenalty_mono h
  | cons m rest ih =>
    intro prev c c' h
    simp only [bbGo]
    split_ifs
    · exact ih m (by omega)
    · exact add_le_add_right (chainPenalty_mono h) _

theorem bbGo_absorb (rest : List CalendarEvent) :
    ∀ (b : CalendarEvent) (c k : ℕ),
      chainPenalty c + bbGo b k rest ≤ bbGo b (c + k + 1) rest := by
  induction rest with
  | nil => intro b c k; exact chainPenalty_superadd c k
  | cons y r ih =>
    intro b c k
    simp only [bbGo]
    split_ifs
    · have h2 := ih y c (k + 1)
      rwa [show c + (k + 1) + 1 = c + k + 1 + 1 by omega] at h2
    · linarith [chainPenalty_superadd c k]

/-- The split of a gap across an inserted meeting: the old gap is the gap to
the new meeting, plus its span, plus the gap from it. -/
theorem gapQ_split (p x b : CalendarEvent) :
    gapQ p b =
      gapQ p x + Rat.divInt (x.end_time.seconds - x.start_time.seconds) 60 +
        gapQ x b := by
  simp only [gapQ, Rat.divInt_eq_div]
  push_cast
  ring

theorem durQ_nonneg {x : CalendarEvent}
    (h : x.start_time.seconds ≤ x.end_time.seconds) :
    0 ≤ Rat.divInt (x.end_time.seconds - x.start_time.seconds) 60 := by
  rw [Rat.divInt_eq_div]
  apply div_nonneg _ (by norm_num)
  push_cast
  have h' : (x.start_time.seconds : ℚ) ≤ (x.end_time.seconds : ℚ) := by
    exact_mod_cast h
  linarith

theorem lastOf_eq_getLast :
    ∀ (mid : List CalendarEvent) (prev : CalendarEvent),
      (prev :: mid).getLast? = some (lastOf prev mid)
  | [], _ => rfl
  | a :: mid, prev => by
    rw [List.getLast?_cons_cons]
    exact lastOf_eq_getLast mid a

/-- Inserting a meeting `x` between `mid` and `suf` in the chain walk cannot
decrease the penalty, provided `x` has nonnegative span, does not overlap the
meeting before it, is not overlapped by the meeting after it, and is
back-to-back (gap ≤ 10) with one of its two neighbours. -/
theorem bbGo_insert (x : CalendarEvent)
    (hdur : x.start_time.seconds ≤ x.end_time.seconds)
    (suf : List CalendarEvent)
    (hnext : ∀ b, suf.head? = some b → 0 ≤ gapQ x b) :
    ∀ (mid : List CalendarEvent) (prev : CalendarEvent) (c : ℕ),
      0 ≤ gapQ (lastOf prev mid) x →
      (gapQ (lastOf prev mid) x ≤ 10 ∨
        ∃ b, suf.head? = some b ∧ gapQ x b ≤ 10) →
      bbGo prev c (mid ++ suf) ≤ bbGo prev c (mid ++ x :: suf) := by
  intro mid
  induction mid with
  | nil =>
    intro p c hprev hadj
    simp only [lastOf] at hprev hadj
    simp only [List.nil_append]
    by_cases hpx : gapQ p x ≤ 10
    · cases suf with
      | nil =>
        simp only [bbGo]
        rw [if_pos hpx]
        exact chainPenalty_mono (by omega)
      | cons b rest =>
        have hnb : 0 ≤ gapQ x b := hnext b rfl
        simp only [bbGo]
        rw [if_pos hpx]
        by_cases hxb : gapQ x b ≤ 10
        · rw [if_pos hxb]
          by_cases hpb : gapQ p b ≤ 10
          · rw [if_pos hpb]
            exact bbGo_mono rest b (by omega)
          · rw [if_neg hpb]
            exact bbGo_absorb rest b c 1
        · rw [if_neg hxb]
          have hpb : ¬ gapQ p b ≤ 10 := by
            have hsplit := gapQ_split p x b
            have hd := durQ_nonneg hdur
            intro hc
            apply hxb
            linarith
          rw [if_neg hpb]
          exact add_le_add_right (chainPenalty_mono (by omega)) _
    · rcases hadj with hadj | ⟨b, hb, hxb⟩
      · exact absurd hadj hpx
      · cases suf with
        | nil => simp at hb
        | cons b' rest =>
          have hb'' : b' = b := by simpa using hb
          subst hb''
          have hnb : 0 ≤ gapQ x b' := hnext b' rfl
          have hpb : ¬ gapQ p b' ≤ 10 := by
            have hsplit := gapQ_split p x b'
            have hd := durQ_nonneg hdur
            intro hc
            apply hpx
            linarith
          simp only [bbGo]
          rw [if_neg hpx, if_neg hpb, if_pos hxb]
          exact add_le_add_left (bbGo_mono rest b' (by omega)) _
  | cons a mid' ih =>
    intro p c hprev hadj
    simp only [lastOf] at hprev hadj
    simp only [List.cons_append, bbGo]
    by_cases hpa : gapQ p a ≤ 10
    · rw [if_pos hpa, if_pos hpa]
      exact ih a (c + 1) hprev hadj
    · rw [if_neg hpa, if_neg hpa]
      exact add_le_add_left (ih a 1 hprev hadj) _

theorem pyRound1_mono {x y : ℝ} (h : x ≤ y) : pyRound1 x ≤ pyRound1 y := by
  rw [pyRound1, pyRound1]
  gcongr

/-- The `back_to_back_penalty` component of a nonempty day is the rounded
chain penalty of the start-sorted events. -/
theorem calc_b2b_eq (prev? : Option ℝ) (l : List CalendarEvent) (hl : l ≠ []) :
    (calculateDailyStress l prev?).components.back_to_back_penalty =
      pyRound1 (backToBackPenalty (sortByStart l)) := by
  cases l with
  | nil => exact absurd rfl hl
  | cons e es => rfl

/-- Core of claim C5 on the raw penalty. -/
theorem backToBackPenalty_insert (pre suf : List CalendarEvent)
    (x : CalendarEvent)
    (hdur : x.start_time.seconds ≤ x.end_time.seconds)
    (hprev : ∀ a, pre.getLast? = some a → 0 ≤ gapQ a x)
    (hnext : ∀ b, suf.head? = some b → 0 ≤ gapQ x b)
    (hadj : (∃ a, pre.getLast? = some a ∧ gapQ a x ≤ 10) ∨
      (∃ b, suf.head? = some b ∧ gapQ x b ≤ 10)) :
    backToBackPenalty (pre ++ suf) ≤ backToBackPenalty (pre ++ x :: suf) := by
  cases pre with
  | nil =>
    cases suf with
    | nil =>
      rcases hadj with ⟨a, ha, _⟩ | ⟨b, hb, _⟩
      · simp at ha
      · simp at hb
    | cons b rest =>
      rcases hadj with ⟨a, ha, _⟩ | ⟨b', hb', hxb⟩
      · simp at ha
      · have hb'' : b = b' := by simpa using hb'
        subst hb''
        simp only [List.nil_append, backToBackPenalty, bbGo]
        rw [if_pos hxb]
        exact bbGo_mono rest b (by omega)
  | cons p pre' =>
    simp only [List.cons_append, backToBackPenalty]
    have hlast := lastOf_eq_getLast pre' p
    apply bbGo_insert x hdur suf hnext pre' p 1
    · apply hprev
      exact hlast
    · rcases hadj with ⟨a, ha, hle⟩ | hr
      · left
        have : a = lastOf p pre' := by
          rw [hlast] at ha
          exact (Option.some_injective _ ha).symm
        rwa [← this]
      · right
        exact hr

/-- C5 (amended): adding a back-to-back meeting (gap ≤ 10 minutes to an
adjacent meeting after sorting) cannot decrease the
`components.back_to_back_penalty` of the stress result, PROVIDED the added
meeting has nonnegative span and does not overlap its adjacent meetings (the
original claim fails when the new meeting overlaps its predecessor — see the
counterexample, where an overlapping insert splits an 11-chain). -/
theorem b2b_penalty_insert_mono (prev? : Option ℝ)
    (pre suf : List CalendarEvent) (x : CalendarEvent)
    (hdur : x.start_time.seconds ≤ x.end_time.seconds)
    (hprev : ∀ a, pre.getLast? = some a → 0 ≤ gapQ a x)
    (hnext : ∀ b, suf.head? = some b → 0 ≤ gapQ x b)
    (hadj : (∃ a, pre.getLast? = some a ∧ gapQ a x ≤ 10) ∨
      (∃ b, suf.head? = some b ∧ gapQ x b ≤ 10))
    (hs1 : sortByStart (pre ++ suf) = pre ++ suf)
    (hs2 : sortByStart (pre ++ x :: suf) = pre ++ x :: suf) :
    (calculateDailyStress (pre ++ suf) prev?).components.back_to_back_penalty ≤
      (calculateDailyStress (pre ++ x :: suf)
        prev?).components.back_to_back_penalty := by
  have hne1 : pre ++ suf ≠ [] := by
    rcases hadj with ⟨a, ha, _⟩ | ⟨b, hb, _⟩
    · cases pre with
      | nil => simp at ha
      | cons p pre' => simp
    · cases suf with
      | nil => simp at hb
      | cons b' rest => simp
  have hne2 : pre ++ x :: suf ≠ [] := by
    cases pre <;> simp
  rw [calc_b2b_eq prev? _ hne1, calc_b2b_eq prev? _ hne2, hs1, hs2]
  exact pyRound1_mono
    (backToBackPenalty_insert pre suf x hdur hprev hnext hadj)

/-- C5 witness: appending the 10:05–10:35 meeting between two others with
5-minute gaps on both sides. -/
theorem b2b_penalty_insert_mono_witness :
    (calculateDailyStress [evAt 540 600, evAt 640 700]
        none).components.back_to_back_penalty ≤
      (calculateDailyStress [evAt 540 600, evAt 605 635, evAt 640 700]
        none).components.back_to_back_penalty :=
  b2b_penalty_insert_mono none [evAt 540 600] [evAt 640 700] (evAt 605 635)
    (by decide)
    (fun a ha => by
      have : a = evAt 540 600 := by simpa using ha.symm
      subst this
      decide)
    (fun b hb => by
      have : b = evAt 640 700 := by simpa using hb.symm
      subst this
      decide)
    (Or.inl ⟨evAt 540 600, rfl, by decide⟩)
    (by decide) (by decide)

/-- C5 counterexample: the claim as stated is false.  `cexChain` is a sorted
day forming one back-to-back chain of 11 meetings (penalty `15·11^1.5`);
adding `cexX` — whose gap to its sorted-adjacent predecessor is ≤ 10 minutes,
satisfying the claim's hypothesis, but which overlaps that predecessor —
splits it into chains of 2 and 10 (penalty `15·(2^1.5 + 10^1.5)`), and the
reported `back_to_back_penalty` component DROPS from 547.2 to 516.8. -/
theorem b2b_penalty_decrease_cex :
    gapQ (evAt 540 640) cexX ≤ 10 ∧
    sortByStart cexChain = cexChain ∧
    sortByStart cexChain' = cexChain' ∧
    (calculateDailyStress cexChain' none).components.back_to_back_penalty <
      (calculateDailyStress cexChain none).components.back_to_back_penalty := by
  refine ⟨by decide, by decide, by decide, ?_⟩
  have s2l : (1.41421 : ℝ) < Real.sqrt 2 := by
    nlinarith [Real.sq_sqrt (show (0:ℝ) ≤ 2 by norm_num), Real.sqrt_nonneg 2]
  have s2u : Real.sqrt 2 < 1.41422 := by
    nlinarith [Real.sq_sqrt (show (0:ℝ) ≤ 2 by norm_num), Real.sqrt_nonneg 2]
  have s10l : (3.16227 : ℝ) < Real.sqrt 10 := by
    nlinarith [Real.sq_sqrt (show (0:ℝ) ≤ 10 by norm_num), Real.sqrt_nonneg 10]
  have s10u : Real.sqrt 10 < 3.16228 := by
    nlinarith [Real.sq_sqrt (show (0:ℝ) ≤ 10 by norm_num), Real.sqrt_nonneg 10]
  have s11l : (3.31662 : ℝ) < Real.sqrt 11 := by
    nlinarith [Real.sq_sqrt (show (0:ℝ) ≤ 11 by norm_num), Real.sqrt_nonneg 11]
  have s11u : Real.sqrt 11 < 3.31663 := by
    nlinarith [Real.sq_sqrt (show (0:ℝ) ≤ 11 by norm_num), Real.sqrt_nonneg 11]
  have hb1 : backToBackPenalty cexChain = chainPenalty 11 := by
    simp only [cexChain, backToBackPenalty, bbGo]
    norm_num [gapQ, evAt, Rat.divInt_eq_div]
  have hb2 : backToBackPenalty cexChain' = chainPenalty 2 + chainPenalty 10 := by
    simp only [cexChain', cexX, backToBackPenalty, bbGo]
    norm_num [gapQ, evAt, Rat.divInt_eq_div]
  have hc11 : chainPenalty 11 = 15 * (11 * Real.sqrt 11) := by
    rw [chainPenalty, if_pos (by norm_num)]
    rw [show ((11:ℕ):ℝ) = (11:ℝ) by norm_num, rpow15_eq (by norm_num)]
  have hc2 : chainPenalty 2 = 15 * (2 * Real.sqrt 2) := by
    rw [chainPenalty, if_pos (by norm_num)]
    rw [show ((2:ℕ):ℝ) = (2:ℝ) by norm_num, rpow15_eq (by norm_num)]
  have hc10 : chainPenalty 10 = 15 * (10 * Real.sqrt 10) := by
    rw [chainPenalty, if_pos (by norm_num)]
    rw [show ((10:ℕ):ℝ) = (10:ℝ) by norm_num, rpow15_eq (by norm_num)]
  have f1 : ⌊10 * (15 * (11 * Real.sqrt 11)) + 1/2⌋ = (5472 : ℤ) := by
    rw [Int.floor_eq_iff]
    constructor
    · push_cast
      nlinarith [s11l]
    · push_cast
      nlinarith [s11u]
  have f2 : ⌊10 * (15 * (2 * Real.sqrt 2) + 15 * (10 * Real.sqrt 10)) + 1/2⌋ =
      (5168 : ℤ) := by
    rw [Int.floor_eq_iff]
    constructor
    · push_cast
      nlinarith [s2l, s10l]
    · push_cast
      nlinarith [s2u, s10u]
  rw [calc_b2b_eq none cexChain' (by decide), calc_b2b_eq none cexChain (by decide),
    show sortByStart cexChain' = cexChain' by decide,
    show sortByStart cexChain = cexChain by decide,
    hb1, hb2, hc11, hc2, hc10, pyRound1, pyRound1, f1, f2]
  norm_num
